import Mathlib

/-!
Verification of the `nick` REST route handlers (QMS document register,
draft lifecycle, training module, knowledge-base docs) against their
natural-language specification.

The relational store is embedded as lists of rows; each route handler is a
pure function from a database state and a request to a response together
with the successor state.  SQL statements are translated one by one:
`SELECT ... WHERE` becomes `List.find?`/`List.filter`, `UPDATE ... WHERE`
becomes `List.map` guarded by the `WHERE` predicate, `INSERT` appends, and
`DELETE` filters.  Timestamps (`now()`, `CURRENT_DATE`) are ticks of the
per-request clock `DB.now`; serial primary keys and generated identifiers
come from the counter `DB.next_id`.  Derived columns that no claim reads
(`content_hash`, `body_tsv`, audit triggers) are elided, as are the
free-text parts of messages interpolated from row data.
-/

/-! ### JavaScript value helpers

The handlers use JS truthiness (`!x`, `a || b`) on nullable strings and
numbers, and `Number(...)` coercion in `bumpVersion`.  These helpers model
exactly the fragment those call sites can see.
-/

/-- JS truthiness of a nullable string: `null`/`undefined` and the empty
string are falsy, every other string is truthy. -/
def jsTruthyStr : Option String → Bool
  | none => false
  | some s => s ≠ ""

/-- JS truthiness of a nullable id number: `null`/`undefined` and `0` are
falsy. -/
def jsTruthyNat : Option Nat → Bool
  | none => false
  | some n => n ≠ 0

/-- JS `a || b` for a nullable string `a` and a string default `b`. -/
def jsOrDefault (a : Option String) (b : String) : String :=
  if jsTruthyStr a then a.getD "" else b

/-- JS `a || b` for two nullable strings (the empty string falls through). -/
def jsOrOpt (a b : Option String) : Option String :=
  if jsTruthyStr a then a else b

/-- Decimal value of a digit-character list (accumulator form). -/
def digitsToNat : List Char → Nat → Nat
  | [], acc => acc
  | c :: cs, acc => digitsToNat cs (acc * 10 + (c.toNat - '0'.toNat))

/-- JS `Number(s)` on the fragment reachable from `bumpVersion`: the empty
string coerces to `0` and decimal digit strings parse as naturals; every
other shape that can appear between the dots of a version string is `NaN`,
modelled as `none`.  (Exotic `Number` inputs - signs, exponents, hex,
whitespace, fractional parts - cannot satisfy the claims hypotheses and
are conflated with `NaN` here.) -/
def jsNumber (s : String) : Option Nat :=
  match s.data with
  | [] => some 0
  | cs => if cs.all Char.isDigit then some (digitsToNat cs 0) else none

/-- JS `version.split('.')` on a single-character separator: cut the string
at every dot (same semantics as `String.splitOn "."`, written as structural
recursion over the characters). -/
def splitDotGo : List Char → List Char → List String
  | [], acc => [String.mk acc.reverse]
  | c :: cs, acc =>
    if c = '.' then String.mk acc.reverse :: splitDotGo cs []
    else splitDotGo cs (c :: acc)

def splitOnDot (s : String) : List String :=
  splitDotGo s.data []

/-- Rendering a JS number (possibly `NaN`) into a template string. -/
def showNum : Option Nat → String
  | none => "NaN"
  | some n => toString n

/-- JS `x + 1` on a number that may be `NaN` (`NaN + 1` is `NaN`). -/
def jsAdd1 (x : Option Nat) : Option Nat := x.map (· + 1)

/-! ### `bumpVersion` (src/routes/docs/docs.js)

Splits on `'.'`, coerces each part with `Number`, pads to three parts with
`0`, then bumps.  An invalid bump type throws, modelled as `none`. -/

def bumpVersion (version bump : String) : Option String :=
  let parts := (splitOnDot version).map jsNumber
  let parts := parts ++ List.replicate (3 - parts.length) (some 0)
  let major := parts.getD 0 (some 0)
  let minor := parts.getD 1 (some 0)
  let patch := parts.getD 2 (some 0)
  if bump = "major" then some (showNum (jsAdd1 major) ++ ".0.0")
  else if bump = "minor" then some (showNum major ++ "." ++ showNum (jsAdd1 minor) ++ ".0")
  else if bump = "patch" then
    some (showNum major ++ "." ++ showNum minor ++ "." ++ showNum (jsAdd1 patch))
  else none

/-! ### Row types -/

/-- A row of `i18n.docs` (columns no claim reads are elided). -/
structure DocRow where
  id : Nat
  slug : String
  file_path : String := ""
  title : Option String
  body_md : Option String
  frontmatter : Option (List (String × String))
  version : Option String
  author : Option String
  is_edited : Bool
  edited_by : Option String
  updated_at : Nat
  deriving Repr, DecidableEq

/-- A row of `i18n.doc_drafts`. -/
structure DraftRow where
  id : Nat
  doc_id : Nat
  version : String
  title : Option String
  body_md : Option String
  frontmatter : Option (List (String × String))
  status : String
  created_by : String
  updated_by : String
  created_at : Nat
  updated_at : Nat
  reviewer_notes : Option String
  deriving Repr, DecidableEq

/-- A row of `i18n.doc_versions` (primary key `(doc_id, version)`;
`content_hash` is a derived column no claim reads and is elided). -/
structure DocVersionRow where
  doc_id : Nat
  version : String
  title : Option String
  body_md : Option String
  frontmatter : Option (List (String × String))
  author : Option String
  published_by : String
  published_at : Nat
  superseded_at : Option Nat
  superseded_by : Option String
  changes : Option String
  deriving Repr, DecidableEq

/-- A row of `qms.controlled_documents`. -/
structure ControlledDocRow where
  id : Nat
  document_id : String
  title : Option String
  document_type : Option String
  domain_code : Option String
  version : Option String
  status : Option String
  classification : Option String
  effective_date : Option Nat
  next_review_date : Option Nat
  owner : Option String
  author : Option String
  reviewer : Option String
  approver : Option String
  implementsDoc : Option String
  retention_years : Option Int
  retention_basis : Option String
  location : Option String
  docs_id : Option Nat
  body_md : Option String
  notes : Option String
  updated_at : Nat
  deriving Repr, DecidableEq

/-- A row of `qms.document_transitions`. -/
structure TransitionRow where
  id : Nat
  document_id : String
  action : String
  from_status : Option String
  to_status : Option String
  from_version : Option String
  to_version : Option String
  performed_by : String
  comment : Option String
  evidence_ref : Option String
  performed_at : Nat
  deriving Repr, DecidableEq

/-- A row of `qms.document_evidence`; `evidence_data` carries the request
payload opaquely (no claim inspects its JSON shape). -/
structure EvidenceRow where
  id : Nat
  document_id : String
  transition_id : Option Nat
  evidence_type : String
  evidence_data : String
  evidence_text : Option String
  recorded_by : String
  recorded_at : Nat
  is_superseded : Bool
  deriving Repr, DecidableEq

/-- A row of `qms.ref_evidence_types`. -/
structure RefEvidenceType where
  code : String
  label : String
  required : Bool
  phase : Nat
  deriving Repr, DecidableEq

/-- One entry of a training module's `steps` jsonb array. -/
structure StepDef where
  step : Int
  key : String
  validation : String
  deriving Repr, DecidableEq

/-- A row of `qms.training_modules`. -/
structure TrainingModuleRow where
  id : Nat
  module_code : String
  title : String
  description : Option String := none
  sop_reference : Option String := none
  steps : List StepDef
  grants_roles : List String
  active : Bool
  deriving Repr, DecidableEq

/-- A row of `qms.training_sessions`. -/
structure TrainingSessionRow where
  id : Nat
  user_id : String
  module_id : Nat
  training_doc_id : Option String
  current_step : Int
  status : String
  completed_at : Option Nat
  certificate_id : Option String
  deriving Repr, DecidableEq

/-- A row of `qms.training_certificates`. -/
structure CertificateRow where
  certificate_id : String
  session_id : Nat
  user_id : String
  user_fullname : Option String
  module_code : String
  module_title : String
  qualified_for : List String
  deriving Repr, DecidableEq

/-- A row of `qms.user_roles`. -/
structure UserRoleRow where
  user_id : String
  role_code : String
  active : Bool
  granted_by : String
  granted_at : Nat
  deriving Repr, DecidableEq

/-- A row of `qms.training_step_completions`
(primary key `(session_id, step_number)`). -/
structure StepCompletionRow where
  session_id : Nat
  step_number : Int
  step_key : String
  validated_by : String
  deriving Repr, DecidableEq

/-- A row of the `"user"` table (only the columns the training flow reads). -/
structure UserRow where
  id : String
  fullname : Option String
  deriving Repr, DecidableEq

/-- A row of `qms.ref_relationship_types` (document link vocabulary). -/
structure RefRelTypeRow where
  code : String
  label : String
  description : Option String
  inverse_code : Option String
  deriving Repr, DecidableEq

/-- A row of `qms.document_links`
(unique on `(source_doc_id, target_doc_id, relationship_type)`). -/
structure DocumentLinkRow where
  id : Nat
  source_doc_id : String
  target_doc_id : String
  relationship_type : String
  notes : Option String
  created_by : String
  created_at : Nat
  deriving Repr, DecidableEq

/-- A row of `qms.problem_reports` (only the columns the issue detail
endpoint's joins read). -/
structure ProblemReportRow where
  report_id : String
  status : String
  severity : String
  problem_type : String
  deriving Repr, DecidableEq

/-- A row of `qms.ref_problem_statuses`. -/
structure RefProblemStatusRow where
  code : String
  label : String
  is_open : Bool
  deriving Repr, DecidableEq

/-- A `(code, label)` row of `qms.ref_problem_severities` or
`qms.ref_problem_types`. -/
structure RefLabelRow where
  code : String
  label : String
  deriving Repr, DecidableEq

/-- The database state visible to the route handlers, plus the transaction
clock `now` and the serial/identifier counter `next_id`. -/
structure DB where
  docs : List DocRow
  doc_drafts : List DraftRow
  doc_versions : List DocVersionRow
  controlled_documents : List ControlledDocRow
  document_transitions : List TransitionRow
  document_evidence : List EvidenceRow
  ref_evidence_types : List RefEvidenceType
  training_modules : List TrainingModuleRow
  training_sessions : List TrainingSessionRow
  training_certificates : List CertificateRow
  user_roles : List UserRoleRow
  training_step_completions : List StepCompletionRow
  users : List UserRow
  ref_relationship_types : List RefRelTypeRow
  document_links : List DocumentLinkRow
  problem_reports : List ProblemReportRow
  ref_problem_statuses : List RefProblemStatusRow
  ref_problem_severities : List RefLabelRow
  ref_problem_types : List RefLabelRow
  now : Nat
  next_id : Nat
  deriving Repr, DecidableEq

/-! ### Responses and requests

A `Response` projects the JSON body onto the fields some claim reads;
`status` defaults to 200 as in the framework. -/

structure Response where
  status : Nat := 200
  error : Option String := none
  missing_evidence : List (String × String) := []
  okFlag : Option Bool := none
  completed : Option Bool := none
  certificate_id : Option String := none
  current_step : Option Int := none
  versionOut : Option String := none
  deriving Repr, DecidableEq

def errorResponse (s : Nat) (msg : String) : Response :=
  { status := s, error := some msg }

/-- Body of `PUT /@docs/draft`.  An absent field is `none` (the handler
distinguishes absent from present with `!== undefined`); evidence payloads
are carried opaquely. -/
structure PutDraftReq where
  slug : Option String
  version : Option String
  title : Option String
  body_md : Option String
  frontmatter : Option (List (String × String))
  justification : Option String
  user : Option String
  deriving Repr, DecidableEq

/-- Body of `POST /@docs/draft/submit`. -/
structure SubmitReq where
  slug : Option String
  coi_declaration : Option String
  qualification : Option String
  user : Option String
  deriving Repr, DecidableEq

/-- Body of `POST /@docs/draft/reject`. -/
structure RejectReq where
  slug : Option String
  notes : Option String
  rejection : Option String
  user : Option String
  deriving Repr, DecidableEq

/-- Body of `POST /@docs/draft/approve`. -/
structure ApproveReq where
  slug : Option String
  comment : Option String
  checklist : Option String
  approval_justification : Option String
  change_classification : Option String
  user : Option String
  deriving Repr, DecidableEq

/-- Query of `DELETE /@docs/draft`. -/
structure DeleteDraftReq where
  slug : Option String
  deriving Repr, DecidableEq

/-! ### Shared query helpers (src/routes/docs/drafts.js) -/

/-- `getQmsDocumentId`: the QMS `document_id` for an `i18n.docs.id`, or
`none` when the document is not QMS-registered. -/
def getQmsDocumentId (db : DB) (docsId : Nat) : Option String :=
  (db.controlled_documents.find? (fun cd => cd.docs_id == some docsId)).map (·.document_id)

/-- `insertEvidence`: append a `qms.document_evidence` row
(`is_superseded` defaults to false). -/
def insertEvidence (db : DB) (documentId : String) (transitionId : Option Nat)
    (evidenceType : String) (evidenceData : String) (evidenceText : Option String)
    (recordedBy : String) : DB :=
  { db with
    document_evidence := db.document_evidence ++
      [{ id := db.next_id, document_id := documentId, transition_id := transitionId,
         evidence_type := evidenceType, evidence_data := evidenceData,
         evidence_text := evidenceText, recorded_by := recordedBy,
         recorded_at := db.now, is_superseded := false }],
    next_id := db.next_id + 1 }

/-- `INSERT INTO i18n.doc_versions ... ON CONFLICT (doc_id, version) DO NOTHING`. -/
def insertVersionIfAbsent (db : DB) (row : DocVersionRow) : DB :=
  if db.doc_versions.any (fun v => v.doc_id == row.doc_id && v.version == row.version)
  then db
  else { db with doc_versions := db.doc_versions ++ [row] }

/-! ### `PUT /@docs/draft` (create or update the single draft) -/

def putDocDraft (db : DB) (req : PutDraftReq) : Response × DB :=
  let userId := req.user.getD "unknown"
  if ! jsTruthyStr req.slug then ⟨errorResponse 400 "Document slug required", db⟩
  else
    match db.docs.find? (fun d => d.slug == req.slug.getD "") with
    | none => ⟨errorResponse 404 "Document not found", db⟩
    | some doc =>
      if ! jsTruthyStr req.version then
        ⟨errorResponse 400 "Version is required for a draft", db⟩
      else
        -- insert parameters: a field absent from the body falls back to the
        -- current document content (`title !== undefined ? title : doc.title`)
        let version := req.version.getD ""
        let newTitle := match req.title with | some t => some t | none => doc.title
        let newBody := match req.body_md with | some b => some b | none => doc.body_md
        let newFm := match req.frontmatter with | some f => some f | none => doc.frontmatter
        -- upsert `ON CONFLICT (doc_id) DO UPDATE`; a rejected draft returns
        -- to 'draft' and its reviewer notes are cleared.  `updated_at` is
        -- refreshed by the table's row trigger (schema, not under src/).
        let upsert : DraftRow × DB :=
          match db.doc_drafts.find? (fun r => r.doc_id == doc.id) with
          | some old =>
            let upd := { old with
              version := version, title := newTitle, body_md := newBody,
              frontmatter := newFm, updated_by := userId,
              status := if old.status == "rejected" then "draft" else old.status,
              reviewer_notes := if old.status == "rejected" then none else old.reviewer_notes,
              updated_at := db.now }
            ⟨upd, { db with doc_drafts := db.doc_drafts.map (fun r =>
                      if r.id == old.id then upd else r) }⟩
          | none =>
            let fresh : DraftRow :=
              { id := db.next_id, doc_id := doc.id, version := version,
                title := newTitle, body_md := newBody, frontmatter := newFm,
                status := "draft", created_by := userId, updated_by := userId,
                created_at := db.now, updated_at := db.now, reviewer_notes := none }
            ⟨fresh, { db with
                      doc_drafts := db.doc_drafts ++ [fresh],
                      next_id := db.next_id + 1 }⟩
        let draft := upsert.1
        let dbU := upsert.2
        let isNew := draft.created_at == draft.updated_at
        -- CR-2026-026: justification evidence on first save of a QMS document
        let dbE :=
          if isNew && req.justification.isSome then
            match getQmsDocumentId dbU doc.id with
            | some qmsDocId =>
              insertEvidence dbU qmsDocId none "justification"
                (req.justification.getD "") (some "Justification") userId
            | none => dbU
          else dbU
        ⟨{ status := if isNew then 201 else 200 }, dbE⟩

/-! ### `DELETE /@docs/draft` (abandon) -/

def deleteDocDraft (db : DB) (req : DeleteDraftReq) : Response × DB :=
  if ! jsTruthyStr req.slug then ⟨errorResponse 400 "Document slug required", db⟩
  else
    let docId := (db.docs.find? (fun d => d.slug == req.slug.getD "")).map (·.id)
    let deleted := db.doc_drafts.filter (fun r => some r.doc_id == docId)
    let db' := { db with doc_drafts := db.doc_drafts.filter (fun r => !(some r.doc_id == docId)) }
    if deleted.isEmpty then ⟨errorResponse 404 "No draft found for this document", db'⟩
    else ⟨{ status := 200 }, db'⟩

/-! ### `POST /@docs/draft/submit` (draft → in_review) -/

def postDocDraftSubmit (db : DB) (req : SubmitReq) : Response × DB :=
  let userId := req.user.getD "unknown"
  if ! jsTruthyStr req.slug then ⟨errorResponse 400 "Document slug required", db⟩
  else
    let docId := (db.docs.find? (fun d => d.slug == req.slug.getD "")).map (·.id)
    let pred := fun (r : DraftRow) =>
      some r.doc_id == docId && (r.status == "draft" || r.status == "rejected")
    let updRow := fun (r : DraftRow) =>
      { r with status := "in_review", reviewer_notes := none,
               updated_by := userId, updated_at := db.now }
    match db.doc_drafts.find? pred with
    | none =>
      -- no row updated: distinguish wrong-status (409) from no-draft (404)
      match db.doc_drafts.find? (fun r => some r.doc_id == docId) with
      | some _ => ⟨errorResponse 409 "Cannot submit: wrong draft status", db⟩
      | none => ⟨errorResponse 404 "No draft found for this document", db⟩
    | some first =>
      let db1 := { db with doc_drafts := db.doc_drafts.map (fun r =>
                    if pred r then updRow r else r) }
      -- CR-2026-026: COI + qualification evidence for QMS documents
      match getQmsDocumentId db1 first.doc_id with
      | some qmsDocId =>
        let db2 :=
          if req.coi_declaration.isSome then
            insertEvidence db1 qmsDocId none "coi_declaration"
              (req.coi_declaration.getD "") (some "COI declaration") userId
          else db1
        let db3 :=
          if req.qualification.isSome then
            insertEvidence db2 qmsDocId none "qualification"
              (req.qualification.getD "") (some "Qualification") userId
          else db2
        ⟨{ status := 200 }, db3⟩
      | none => ⟨{ status := 200 }, db1⟩

/-! ### `POST /@docs/draft/reject` (in_review → rejected) -/

def postDocDraftReject (db : DB) (req : RejectReq) : Response × DB :=
  let userId := req.user.getD "unknown"
  if ! jsTruthyStr req.slug then ⟨errorResponse 400 "Document slug required", db⟩
  else if ! jsTruthyStr req.notes then
    ⟨errorResponse 400 "Reviewer notes are required when rejecting a draft", db⟩
  else
    let docId := (db.docs.find? (fun d => d.slug == req.slug.getD "")).map (·.id)
    let pred := fun (r : DraftRow) => some r.doc_id == docId && r.status == "in_review"
    let updRow := fun (r : DraftRow) =>
      { r with status := "rejected", reviewer_notes := req.notes,
               updated_by := userId, updated_at := db.now }
    match db.doc_drafts.find? pred with
    | none =>
      match db.doc_drafts.find? (fun r => some r.doc_id == docId) with
      | some _ => ⟨errorResponse 409 "Cannot reject: wrong draft status", db⟩
      | none => ⟨errorResponse 404 "No draft found for this document", db⟩
    | some first =>
      let db1 := { db with doc_drafts := db.doc_drafts.map (fun r =>
                    if pred r then updRow r else r) }
      -- CR-2026-026: structured rejection evidence for QMS documents
      match getQmsDocumentId db1 first.doc_id with
      | some qmsDocId =>
        ⟨{ status := 200 },
         insertEvidence db1 qmsDocId none "rejection_feedback"
           (req.rejection.getD "") req.notes userId⟩
      | none => ⟨{ status := 200 }, db1⟩

/-! ### `POST /@docs/draft/approve` (the publish transaction)

The handler runs, in order: (1) fetch draft+doc, status gate; (2) snapshot
the current effective content into `i18n.doc_versions`; (3) mark previous
version snapshots superseded; (4) copy draft content into `i18n.docs`;
(5) for QMS-registered documents, the evidence gate, the `approve`
transition, approval evidence, and the register update; (6) snapshot the
new version; (7) delete the draft.  Steps 2-4 and 6-7 are split into named
functions mirroring the numbered SQL statements. -/

/-- The `i18n.doc_versions` row snapshotting the current effective content
of `d` (step 2's insert parameters). -/
def prevVersionRow (db : DB) (d : DocRow) (userId : String) (curVer : String) : DocVersionRow :=
  { doc_id := d.id, version := curVer, title := d.title, body_md := d.body_md,
    frontmatter := d.frontmatter, author := d.author, published_by := userId,
    published_at := db.now, superseded_at := none, superseded_by := none,
    changes := none }

/-- Step 2: `INSERT INTO i18n.doc_versions ... ON CONFLICT DO NOTHING`
snapshotting the current effective content of `d`. -/
def snapshotPrevVersion (db : DB) (d : DocRow) (userId : String) (curVer : String) : DB :=
  insertVersionIfAbsent db (prevVersionRow db d userId curVer)

/-- The row update of step 3 (`SET superseded_at = now(), superseded_by = ?`
guarded by the `WHERE` clause). -/
def supersedeFn (docId : Nat) (newVer : String) (now : Nat) (v : DocVersionRow) : DocVersionRow :=
  if v.doc_id == docId && v.superseded_at == none && v.version != newVer
  then { v with superseded_at := some now, superseded_by := some newVer }
  else v

/-- Step 3: mark previous version snapshots of `docId` superseded by `newVer`. -/
def supersedeOld (db : DB) (docId : Nat) (newVer : String) : DB :=
  { db with doc_versions := db.doc_versions.map (supersedeFn docId newVer db.now) }

/-- Step 4: `UPDATE i18n.docs SET title = COALESCE(?, title), ...`
copying the draft content onto the effective document. -/
def applyDraftToDocs (db : DB) (d : DocRow) (dr : DraftRow) (userId : String) : DB :=
  { db with docs := db.docs.map (fun x =>
      if x.id == d.id then
        { x with
          title := match dr.title with | some t => some t | none => x.title,
          body_md := match dr.body_md with | some b => some b | none => x.body_md,
          version := some dr.version,
          frontmatter := if dr.frontmatter.isSome then dr.frontmatter else x.frontmatter,
          is_edited := true, edited_by := some userId, updated_at := db.now }
      else x) }

/-- Steps 2-4 chained: the writes staged before the QMS evidence gate runs. -/
def approveStaged (db : DB) (d : DocRow) (dr : DraftRow) (userId : String)
    (curVer : String) : DB :=
  applyDraftToDocs (supersedeOld (snapshotPrevVersion db d userId curVer) d.id dr.version)
    d dr userId

/-- The `CR-2026-026` validation gate: required phase 1-2 evidence types with
no non-superseded evidence row for the document. -/
def missingEvidenceTypes (db : DB) (qmsDocId : String) : List RefEvidenceType :=
  db.ref_evidence_types.filter (fun ret =>
    ret.required && decide (ret.phase ≤ 2) &&
    ! db.document_evidence.any (fun de =>
        de.document_id == qmsDocId && de.evidence_type == ret.code && ! de.is_superseded))

/-- Step 5a: record the `approve` transition, returning its generated id. -/
def recordApproveTransition (db : DB) (qmsDocId : String) (curVer newVer userId : String)
    (comment : Option String) : Nat × DB :=
  ⟨db.next_id,
   { db with
     document_transitions := db.document_transitions ++
       [{ id := db.next_id, document_id := qmsDocId, action := "approve",
          from_status := some "in_review", to_status := some "effective",
          from_version := some curVer, to_version := some newVer,
          performed_by := userId,
          comment := some (jsOrDefault comment "Approved via draft management"),
          evidence_ref := none, performed_at := db.now }],
     next_id := db.next_id + 1 }⟩

/-- Step 5b: the three conditional approval evidence inserts
(checklist, approval justification, change classification). -/
def approveEvidence (db : DB) (qmsDocId : String) (transitionId : Nat)
    (req : ApproveReq) (userId : String) : DB :=
  let db1 :=
    if req.checklist.isSome then
      insertEvidence db qmsDocId (some transitionId) "self_review_checklist"
        (req.checklist.getD "") (some "FRM-DC-004 self-review") userId
    else db
  let db2 :=
    if req.approval_justification.isSome then
      insertEvidence db1 qmsDocId (some transitionId) "approval_justification"
        (req.approval_justification.getD "") (some "Approved") userId
    else db1
  if req.change_classification.isSome then
    insertEvidence db2 qmsDocId (some transitionId) "change_classification"
      (req.change_classification.getD "") (some "Classification") userId
  else db2

/-- Step 5c: `UPDATE qms.controlled_documents SET version = ?,
status = 'effective', effective_date = CURRENT_DATE WHERE docs_id = ?`. -/
def setQmsEffective (db : DB) (docsId : Nat) (newVer : String) : DB :=
  { db with controlled_documents := db.controlled_documents.map (fun cd =>
      if cd.docs_id == some docsId then
        { cd with
          version := some newVer, status := some "effective",
          effective_date := some db.now, updated_at := db.now }
      else cd) }

/-- The `i18n.doc_versions` row for the newly published version (step 6's
insert parameters; `draft.title || draft.current_title` and friends). -/
def newVersionRow (db : DB) (d : DocRow) (dr : DraftRow) (userId : String) : DocVersionRow :=
  { doc_id := d.id, version := dr.version,
    title := jsOrOpt dr.title d.title, body_md := jsOrOpt dr.body_md d.body_md,
    frontmatter := if dr.frontmatter.isSome then dr.frontmatter else d.frontmatter,
    author := d.author, published_by := userId, published_at := db.now,
    superseded_at := none, superseded_by := none, changes := none }

/-- Steps 6-7: snapshot the newly published version (`ON CONFLICT DO
NOTHING`) and delete the draft row, then answer 200. -/
def approveFinish (db : DB) (d : DocRow) (dr : DraftRow) (userId : String) : Response × DB :=
  let db1 := insertVersionIfAbsent db (newVersionRow db d dr userId)
  let db2 := { db1 with doc_drafts := db1.doc_drafts.filter (fun r => r.id != dr.id) }
  ⟨{ status := 200, versionOut := some dr.version }, db2⟩

def postDocDraftApprove (db : DB) (req : ApproveReq) : Response × DB :=
  let userId := req.user.getD "unknown"
  if ! jsTruthyStr req.slug then ⟨errorResponse 400 "Document slug required", db⟩
  else
    -- step 1: the draft joined with its document by slug
    match db.docs.find? (fun d => d.slug == req.slug.getD "") with
    | none => ⟨errorResponse 404 "No draft found for this document", db⟩
    | some d =>
      match db.doc_drafts.find? (fun dr => dr.doc_id == d.id) with
      | none => ⟨errorResponse 404 "No draft found for this document", db⟩
      | some dr =>
        if dr.status ≠ "in_review" then
          ⟨errorResponse 409 "Cannot approve: draft status is not in_review", db⟩
        else
          let curVer := jsOrDefault d.version "0.0"
          let db3 := approveStaged db d dr userId curVer
          match getQmsDocumentId db3 d.id with
          | some qmsDocId =>
            let missing := missingEvidenceTypes db3 qmsDocId
            if missing.isEmpty then
              let rec1 := recordApproveTransition db3 qmsDocId curVer dr.version
                            userId req.comment
              let db4 := approveEvidence rec1.2 qmsDocId rec1.1 req userId
              approveFinish (setQmsEffective db4 d.id dr.version) d dr userId
            else
              ⟨{ status := 422,
                 error := some "Cannot approve: required evidence is missing",
                 missing_evidence := missing.map (fun r => (r.code, r.label)) }, db3⟩
          | none => approveFinish db3 d dr userId

/-! ### Training step validators (src/routes/qms/training.js)

Each validator checks real database state for one step of the module. -/

/-- JS whitespace on the fragment draft bodies can contain. -/
def isJsSpace (c : Char) : Bool := c = ' ' || c = '\t' || c = '\n' || c = '\r'

/-- JS `String.prototype.trim`: strip whitespace from both ends (written
structurally over the characters). -/
def jsTrim (s : String) : String :=
  String.mk ((s.data.dropWhile isJsSpace).reverse.dropWhile isJsSpace).reverse

/-- Step validator `draft_exists`: a draft exists for the training document
and its body is at least 20 characters after trimming. -/
def draft_exists (db : DB) (docsId : Nat) : Bool :=
  match db.doc_drafts.find? (fun r => r.doc_id == docsId) with
  | none => false
  | some draft =>
    match draft.body_md with
    | none => false
    | some b => b ≠ "" && decide (20 ≤ (jsTrim b).length)

/-- Step validator `evidence_justification`: a non-superseded justification
evidence row exists. -/
def evidence_justification (db : DB) (qmsDocId : String) : Bool :=
  db.document_evidence.any (fun de =>
    de.document_id == qmsDocId && de.evidence_type == "justification" && ! de.is_superseded)

/-- Step validator `draft_in_review`: the draft exists with status
`in_review`. -/
def draft_in_review (db : DB) (docsId : Nat) : Bool :=
  match db.doc_drafts.find? (fun r => r.doc_id == docsId) with
  | none => false
  | some r => r.status == "in_review"

/-- Step validator `evidence_coi_qualification`: both COI declaration and
qualification evidence exist (non-superseded). -/
def evidence_coi_qualification (db : DB) (qmsDocId : String) : Bool :=
  (db.document_evidence.any (fun de =>
    de.document_id == qmsDocId && de.evidence_type == "coi_declaration" && ! de.is_superseded))
  &&
  (db.document_evidence.any (fun de =>
    de.document_id == qmsDocId && de.evidence_type == "qualification" && ! de.is_superseded))

/-- Step validator `evidence_checklist`: a non-superseded self-review
checklist evidence row exists. -/
def evidence_checklist (db : DB) (qmsDocId : String) : Bool :=
  db.document_evidence.any (fun de =>
    de.document_id == qmsDocId && de.evidence_type == "self_review_checklist"
    && ! de.is_superseded)

/-- Step validator `document_effective`: the training document has reached
status `effective` in the QMS register. -/
def document_effective (db : DB) (qmsDocId : String) : Bool :=
  match db.controlled_documents.find? (fun cd => cd.document_id == qmsDocId) with
  | none => false
  | some cd => cd.status == some "effective"

/-- Validator dispatch (`validators[stepDef.validation]`); `none` models an
unknown validator name. -/
def runValidator (name : String) (db : DB) (docsId : Nat) (qmsDocId : String) : Option Bool :=
  if name == "draft_exists" then some (draft_exists db docsId)
  else if name == "evidence_justification" then some (evidence_justification db qmsDocId)
  else if name == "draft_in_review" then some (draft_in_review db docsId)
  else if name == "evidence_coi_qualification" then
    some (evidence_coi_qualification db qmsDocId)
  else if name == "evidence_checklist" then some (evidence_checklist db qmsDocId)
  else if name == "document_effective" then some (document_effective db qmsDocId)
  else none

/-- The training document lookup: `qms.controlled_documents` joined with
`i18n.docs` on `docs_id`, keyed by the session's `training_doc_id`.
Returns `(docs_id, qms document_id)`. -/
def trainingDocLookup (db : DB) (trainingDocId : Option String) : Option (Nat × String) :=
  match trainingDocId with
  | none => none
  | some tdid =>
    match db.controlled_documents.find? (fun cd => cd.document_id == tdid) with
    | none => none
    | some cd =>
      match cd.docs_id with
      | none => none
      | some did =>
        match db.docs.find? (fun d => d.id == did) with
        | none => none
        | some d => some (d.id, cd.document_id)

/-- `INSERT INTO qms.user_roles ... ON CONFLICT (user_id, role_code) DO
UPDATE SET active = true, granted_by = ..., granted_at = now()`.
Modelled from the spec: the `qms.user_roles` schema is not under src/; a
freshly inserted role grant is active (the training flow grants roles by
this insert, per the role-granting step of the draft-approval workflow
description). -/
def upsertUserRole (db : DB) (userId roleCode grantedBy : String) : DB :=
  if db.user_roles.any (fun ur => ur.user_id == userId && ur.role_code == roleCode) then
    { db with user_roles := db.user_roles.map (fun ur =>
        if ur.user_id == userId && ur.role_code == roleCode then
          { ur with active := true, granted_by := grantedBy, granted_at := db.now }
        else ur) }
  else
    { db with user_roles := db.user_roles ++
        [{ user_id := userId, role_code := roleCode, active := true,
           granted_by := grantedBy, granted_at := db.now }] }

/-- Step 4 of the completion flow: grant every role in `grants_roles`. -/
def grantRoles (db : DB) (userId : String) (roles : List String) : DB :=
  roles.foldl (fun acc r => upsertUserRole acc userId r "training-system") db

/-- Body of `POST /@qms/training/session/validate-step`. -/
structure ValidateStepReq where
  session_id : Option Nat
  step_number : Option Int
  user : Option String
  deriving Repr, DecidableEq

/-- Body of `POST /@qms/training/session/abandon`. -/
structure AbandonReq where
  session_id : Option Nat
  user : Option String
  deriving Repr, DecidableEq

/-! ### `POST /@qms/training/session/validate-step` -/

/-- `INSERT INTO qms.training_step_completions ... ON CONFLICT (session_id,
step_number) DO NOTHING`. -/
def stepCompletionInsert (db : DB) (sid : Nat) (n : Int) (stepDef : StepDef)
    (u : String) : DB :=
  if db.training_step_completions.any (fun c =>
      c.session_id == sid && c.step_number == n) then db
  else { db with training_step_completions :=
          db.training_step_completions ++
          [{ session_id := sid, step_number := n,
             step_key := stepDef.key, validated_by := u }] }

/-- The non-final advance: `UPDATE qms.training_sessions SET current_step
= ? WHERE id = ?`. -/
def advanceSession (db : DB) (sid : Nat) (n : Int) : DB :=
  { db with training_sessions := db.training_sessions.map (fun s =>
      if s.id == sid then { s with current_step := n + 1 } else s) }

/-- The completion flow once the last step validated: look up the user's
fullname, issue the certificate (its `certificate_id` column default is a
generated identifier, modelled from the serial counter since the schema is
not under src/), mark the session completed, and grant the module's roles. -/
def trainingComplete (db : DB) (sid : Nat) (n : Int) (tm : TrainingModuleRow)
    (userId : String) : Response × DB :=
  let fullname :=
    match db.users.find? (fun u => u.id == userId) with
    | some u => u.fullname
    | none => some userId
  let certificateId := "CERT-" ++ toString db.next_id
  let cert : CertificateRow :=
    { certificate_id := certificateId, session_id := sid, user_id := userId,
      user_fullname := fullname, module_code := tm.module_code,
      module_title := tm.title, qualified_for := tm.grants_roles }
  let db2 := { db with
    training_certificates := db.training_certificates ++ [cert],
    next_id := db.next_id + 1 }
  let db3 := { db2 with training_sessions := db2.training_sessions.map (fun s =>
      if s.id == sid then
        { s with
          status := "completed", current_step := n + 1,
          completed_at := some db.now, certificate_id := some certificateId }
      else s) }
  let db4 := grantRoles db3 userId tm.grants_roles
  ⟨{ status := 200, okFlag := some true, completed := some true,
     certificate_id := some certificateId }, db4⟩

def postTrainingValidateStep (db : DB) (req : ValidateStepReq) : Response × DB :=
  let userId := req.user.getD "unknown"
  if ! jsTruthyNat req.session_id || req.step_number == none then
    ⟨errorResponse 400 "session_id and step_number are required", db⟩
  else
    let sid := req.session_id.getD 0
    let n := req.step_number.getD 0
    -- session joined with its module
    match db.training_sessions.find? (fun ts => ts.id == sid) with
    | none => ⟨errorResponse 404 "Training session not found", db⟩
    | some ts =>
      match db.training_modules.find? (fun tm => tm.id == ts.module_id) with
      | none => ⟨errorResponse 404 "Training session not found", db⟩
      | some tm =>
        if ts.user_id ≠ userId then
          ⟨errorResponse 403 "This session belongs to another user", db⟩
        else if ts.status ≠ "in_progress" then
          ⟨errorResponse 409 "Session is not in progress, cannot validate steps", db⟩
        else if n ≠ ts.current_step then
          ⟨errorResponse 409 "Unexpected step number. Complete steps in order.", db⟩
        else
          match tm.steps.find? (fun s => s.step == n) with
          | none => ⟨errorResponse 400 "Step not defined in module", db⟩
          | some stepDef =>
            match trainingDocLookup db ts.training_doc_id with
            | none => ⟨errorResponse 500 "Training document not found in database", db⟩
            | some dl =>
              match runValidator stepDef.validation db dl.1 dl.2 with
              | none => ⟨errorResponse 500 "Unknown validator", db⟩
              | some false => ⟨{ status := 200, okFlag := some false }, db⟩
              | some true =>
                -- record completion, `ON CONFLICT DO NOTHING`
                let db1 := stepCompletionInsert db sid n stepDef userId
                if n == (tm.steps.length : Int) then
                  trainingComplete db1 sid n tm userId
                else
                  ⟨{ status := 200, okFlag := some true, completed := some false,
                     current_step := some (n + 1) },
                   advanceSession db1 sid n⟩

/-! ### `POST /@qms/training/session/abandon` -/

def postTrainingAbandon (db : DB) (req : AbandonReq) : Response × DB :=
  let userId := req.user.getD "unknown"
  if ! jsTruthyNat req.session_id then
    ⟨errorResponse 400 "session_id is required", db⟩
  else
    match db.training_sessions.find? (fun ts => ts.id == req.session_id.getD 0) with
    | none => ⟨errorResponse 404 "Training session not found", db⟩
    | some s =>
      if s.user_id ≠ userId then
        ⟨errorResponse 403 "This session belongs to another user", db⟩
      else if s.status ≠ "in_progress" then
        ⟨errorResponse 409 "Session is already closed", db⟩
      else
        let db1 : DB := { db with training_sessions := db.training_sessions.map (fun x =>
            if x.id == s.id then
              { x with status := "abandoned", completed_at := some db.now }
            else x) }
        let db2 :=
          if jsTruthyStr s.training_doc_id then
            let tdid := s.training_doc_id.getD ""
            let dbA : DB := { db1 with controlled_documents := db1.controlled_documents.map (fun cd =>
                  if cd.document_id == tdid then
                    { cd with status := some "obsolete", updated_at := db.now }
                  else cd) }
            let trow : TransitionRow :=
              { id := dbA.next_id, document_id := tdid, action := "obsolete",
                from_status := none, to_status := some "obsolete",
                from_version := none, to_version := none, performed_by := userId,
                comment := some "Training session abandoned", evidence_ref := none,
                performed_at := db.now }
            { dbA with
              document_transitions := dbA.document_transitions ++ [trow],
              next_id := dbA.next_id + 1 }
          else db1
        ⟨{ status := 200 }, db2⟩

/-! ### QMS register write endpoints (src/routes/qms/qms.js) -/

/-- SA-2026-001 M-2 input validation, the regex
`^[A-Za-z0-9][A-Za-z0-9._-]{0,99}$`. -/
def docIdOk (s : String) : Bool :=
  match s.data with
  | [] => false
  | c :: cs =>
    c.isAlphanum && decide (cs.length ≤ 99) &&
    cs.all (fun x => x.isAlphanum || x == '.' || x == '_' || x == '-')

/-- Body of `PUT /@qms/register/:document_id` (`document_id` is the path
parameter).  `none` = field absent; `some ""` = the empty string, which the
handler stores as SQL `NULL`.  The date and numeric columns are carried at
their column types; their empty-string clearing path is not modelled since
no claim reads it. -/
structure PutQmsReq where
  document_id : String
  title : Option String
  document_type : Option String
  domain_code : Option String
  version : Option String
  status : Option String
  classification : Option String
  effective_date : Option Nat
  next_review_date : Option Nat
  owner : Option String
  author : Option String
  reviewer : Option String
  approver : Option String
  implementsDoc : Option String
  retention_years : Option Int
  retention_basis : Option String
  location : Option String
  docs_id : Option Nat
  body_md : Option String
  notes : Option String
  deriving Repr, DecidableEq

/-- One `SET field = ?` entry: an absent body field keeps the old value;
the empty string stores `NULL`. -/
def putField (body old : Option String) : Option String :=
  match body with
  | none => old
  | some s => if s = "" then none else some s

/-- Whether any allowed field is present in the body
(`setClauses.length === 0` check). -/
def putQmsAnyProvided (r : PutQmsReq) : Bool :=
  r.title.isSome || r.document_type.isSome || r.domain_code.isSome ||
  r.version.isSome || r.status.isSome || r.classification.isSome ||
  r.effective_date.isSome || r.next_review_date.isSome || r.owner.isSome ||
  r.author.isSome || r.reviewer.isSome || r.approver.isSome ||
  r.implementsDoc.isSome || r.retention_years.isSome ||
  r.retention_basis.isSome || r.location.isSome || r.docs_id.isSome ||
  r.body_md.isSome || r.notes.isSome

/-- The `UPDATE qms.controlled_documents SET ...` built from the provided
fields. -/
def applyPutQms (r : PutQmsReq) (cd : ControlledDocRow) : ControlledDocRow :=
  { cd with
    title := putField r.title cd.title,
    document_type := putField r.document_type cd.document_type,
    domain_code := putField r.domain_code cd.domain_code,
    version := putField r.version cd.version,
    status := putField r.status cd.status,
    classification := putField r.classification cd.classification,
    effective_date := match r.effective_date with | some d => some d | none => cd.effective_date,
    next_review_date := match r.next_review_date with | some d => some d | none => cd.next_review_date,
    owner := putField r.owner cd.owner,
    author := putField r.author cd.author,
    reviewer := putField r.reviewer cd.reviewer,
    approver := putField r.approver cd.approver,
    implementsDoc := putField r.implementsDoc cd.implementsDoc,
    retention_years := match r.retention_years with | some y => some y | none => cd.retention_years,
    retention_basis := putField r.retention_basis cd.retention_basis,
    location := putField r.location cd.location,
    docs_id := match r.docs_id with | some i => some i | none => cd.docs_id,
    body_md := putField r.body_md cd.body_md,
    notes := putField r.notes cd.notes }

/-- `PUT /@qms/register/:document_id`: metadata/body update.  Note: it
never writes `qms.document_transitions`. -/
def putQmsDocument (db : DB) (req : PutQmsReq) : Response × DB :=
  if ! docIdOk req.document_id then
    ⟨errorResponse 400 "Invalid document ID format", db⟩
  else
    match db.controlled_documents.find? (fun cd => cd.document_id == req.document_id) with
    | none => ⟨errorResponse 404 "Document not found", db⟩
    | some _ =>
      if ! putQmsAnyProvided req then
        ⟨errorResponse 400 "No fields to update", db⟩
      else
        ⟨{ status := 200 },
         { db with controlled_documents := db.controlled_documents.map (fun cd =>
             if cd.document_id == req.document_id then applyPutQms req cd else cd) }⟩

/-- Body of `POST /@qms/register/:document_id/transition`. -/
structure TransitionReq where
  document_id : String
  action : Option String
  to_status : Option String
  to_version : Option String
  comment : Option String
  evidence_ref : Option String
  user : Option String
  deriving Repr, DecidableEq

/-- `POST /@qms/register/:document_id/transition`: record a transition row
and update the document when `to_status`/`to_version` are given. -/
def postQmsTransition (db : DB) (req : TransitionReq) : Response × DB :=
  if ! docIdOk req.document_id then
    ⟨errorResponse 400 "Invalid document ID format", db⟩
  else if ! jsTruthyStr req.action then
    ⟨errorResponse 400 "Required field: action", db⟩
  else
    match db.controlled_documents.find? (fun cd => cd.document_id == req.document_id) with
    | none => ⟨errorResponse 404 "Document not found", db⟩
    | some current =>
      let performed_by := req.user.getD "unknown"
      let row : TransitionRow :=
        { id := db.next_id, document_id := req.document_id,
          action := req.action.getD "",
          from_status := current.status,
          to_status := jsOrOpt req.to_status current.status,
          from_version := current.version,
          to_version := jsOrOpt req.to_version current.version,
          performed_by := performed_by,
          comment := jsOrOpt req.comment none,
          evidence_ref := jsOrOpt req.evidence_ref none,
          performed_at := db.now }
      let db1 : DB := { db with
        document_transitions := db.document_transitions ++ [row],
        next_id := db.next_id + 1 }
      let db2 : DB :=
        if jsTruthyStr req.to_status || jsTruthyStr req.to_version then
          { db1 with controlled_documents := db1.controlled_documents.map (fun cd =>
              if cd.document_id == req.document_id then
                { cd with
                  status := if jsTruthyStr req.to_status then req.to_status else cd.status,
                  version := if jsTruthyStr req.to_version then req.to_version else cd.version,
                  effective_date := if req.to_status == some "effective" then some db.now
                                    else cd.effective_date }
              else cd) }
        else db1
      ⟨{ status := 201 }, db2⟩

/-! ### `POST /@docs/save` (src/routes/docs/docs.js)

Version-bumping save.  The database triggers the handler's comments name
(`trg_audit_docs`, `trg_auto_version_snapshot`) live in the schema, not
under src/, and are not modelled; the handler's own statements are.
An uncaught `throw` from `bumpVersion` is `Except.error`. -/

/-- Body of `POST /@docs/save` (routes require an authenticated user:
the handler reads `req.user.id` without optional chaining). -/
structure SaveReq where
  doc_id : Option Nat
  body_md : Option String
  version_bump : Option String
  change_summary : Option String
  user : String
  deriving Repr, DecidableEq

/-- JS `{...frontmatter, version: v}`: set the `version` key. -/
def fmSetVersion (fm : Option (List (String × String))) (v : String) : List (String × String) :=
  (fm.getD []).filter (fun kv => kv.1 ≠ "version") ++ [("version", v)]

def postDocsSave (db : DB) (req : SaveReq) : Except String (Response × DB) :=
  if ! jsTruthyNat req.doc_id || ! jsTruthyStr req.body_md ||
     ! jsTruthyStr req.version_bump || ! jsTruthyStr req.change_summary then
    .ok ⟨errorResponse 400 "Missing required fields", db⟩
  else if ! ["patch", "minor", "major"].contains (req.version_bump.getD "") then
    .ok ⟨errorResponse 400 "Invalid version_bump", db⟩
  else
    match db.docs.find? (fun d => d.id == req.doc_id.getD 0) with
    | none => .ok ⟨errorResponse 404 "Document not found", db⟩
    | some doc =>
      if ! jsTruthyStr doc.version then
        .ok ⟨errorResponse 400 "Document has no current version", db⟩
      else
        match bumpVersion (doc.version.getD "") (req.version_bump.getD "") with
        | none => .error "Invalid bump type"
        | some newVersion =>
          let username := req.user
          let db1 : DB := { db with docs := db.docs.map (fun d0 =>
              if d0.id == doc.id then
                { d0 with
                  body_md := req.body_md, version := some newVersion,
                  frontmatter := some (fmSetVersion doc.frontmatter newVersion),
                  is_edited := true, edited_by := some username,
                  updated_at := db.now }
              else d0) }
          -- step 6: fill change_summary on the snapshot row (created by the
          -- unmodelled trigger when it exists)
          let db2 : DB := { db1 with doc_versions := db1.doc_versions.map (fun v =>
              if v.doc_id == doc.id && v.version == newVersion && v.changes == none
              then { v with changes := req.change_summary } else v) }
          match getQmsDocumentId db2 doc.id with
          | none => .ok ⟨{ status := 200, versionOut := some newVersion }, db2⟩
          | some qmsDocumentId =>
            let db3 : DB := { db2 with controlled_documents :=
                db2.controlled_documents.map (fun cd =>
                  if cd.docs_id == some doc.id then { cd with version := some newVersion }
                  else cd) }
            let trow : TransitionRow :=
              { id := db3.next_id, document_id := qmsDocumentId,
                action := "content_update", from_status := none, to_status := none,
                from_version := doc.version, to_version := some newVersion,
                performed_by := username, comment := req.change_summary,
                evidence_ref := none, performed_at := db.now }
            let db4 : DB := { db3 with
              document_transitions := db3.document_transitions ++ [trow],
              next_id := db3.next_id + 1 }
            .ok ⟨{ status := 200, versionOut := some newVersion }, db4⟩

/-! ### The framework transaction -/

/-- Modelled from the spec: the nick framework wraps every request handler
in a database transaction and that transaction is "the only atomicity
guarantee" — the dispatcher itself is not under src/.  A handler result
with an error status (>= 400) is rolled back, leaving the database
unchanged; otherwise the handler's writes commit. -/
def runTx (handler : DB → Response × DB) (db : DB) : Response × DB :=
  let r := handler db
  if 400 ≤ r.1.status then ⟨r.1, db⟩ else r

/-! ### Knowledge-base docs read endpoints and document links
(src/routes/docs/docs.js)

The list/search/vocabulary endpoints build their SELECT payloads
unconditionally and answer 200; the embedding projects the response onto
its status surface (`status`/`error`), which is all any claim reads. -/

/-- JS `x || null` for a nullable string (the empty string becomes null). -/
def jsOrNull (s : Option String) : Option String :=
  if jsTruthyStr s then s else none

/-- JS `x || null` for a nullable number (zero becomes null). -/
def jsOrNullNat (n : Option Nat) : Option Nat :=
  if jsTruthyNat n then n else none

/-- `GET /@docs`: paginated category/search listing; every branch returns
the 200 listing. -/
def getDocs (db : DB) : Response := { status := 200 }

/-- `GET /@docs/search`: full-text search; a short query returns the empty
200 listing, a real one the ranked 200 listing. -/
def getDocsSearch (db : DB) : Response := { status := 200 }

/-- Query of `GET /@docs/view` and `GET /@docs/draft`. -/
structure DocViewReq where
  slug : Option String
  deriving Repr, DecidableEq

/-- `GET /@docs/view`: single document by slug. -/
def getDoc (db : DB) (req : DocViewReq) : Response :=
  if ! jsTruthyStr req.slug then errorResponse 400 "Document slug required"
  else if (db.docs.filter (fun d => d.slug == req.slug.getD "")).isEmpty then
    errorResponse 404 "Document not found"
  else { status := 200 }

/-- `GET /@docs/links/types`: the relationship-type vocabulary, always a
200 listing. -/
def getDocLinkTypes (db : DB) : Response := { status := 200 }

/-- Query of `GET /@docs/links`. -/
structure DocLinksQuery where
  doc_id : Option String
  deriving Repr, DecidableEq

/-- `GET /@docs/links`: both-direction links for a document (the
bidirectional view is schema); only the missing-parameter check branches. -/
def getDocLinks (db : DB) (req : DocLinksQuery) : Response :=
  if ! jsTruthyStr req.doc_id then
    errorResponse 400 "doc_id query parameter required"
  else { status := 200 }

/-- Body of `POST /@docs/links`. -/
structure LinkPostReq where
  source_doc_id : Option String
  target_doc_id : Option String
  relationship_type : Option String
  notes : Option String
  user : Option String
  deriving Repr, DecidableEq

/-- `POST /@docs/links`: create a document link.  The
`ON CONFLICT (source_doc_id, target_doc_id, relationship_type) DO NOTHING
RETURNING *` upsert returns no row exactly when the link already exists,
which the handler maps to 409. -/
def postDocLink (db : DB) (req : LinkPostReq) : Response × DB :=
  if ! (jsTruthyStr req.source_doc_id && jsTruthyStr req.target_doc_id &&
        jsTruthyStr req.relationship_type) then
    ⟨errorResponse 400
      "Missing required fields: source_doc_id, target_doc_id, relationship_type", db⟩
  else if req.source_doc_id == req.target_doc_id then
    ⟨errorResponse 400 "Cannot link a document to itself", db⟩
  else if (db.ref_relationship_types.filter
      (fun t => t.code == req.relationship_type.getD "")).isEmpty then
    ⟨errorResponse 400
      ("Invalid relationship_type: " ++ req.relationship_type.getD ""), db⟩
  else
    let username := req.user.getD "anonymous"
    let s := req.source_doc_id.getD ""
    let t := req.target_doc_id.getD ""
    let ty := req.relationship_type.getD ""
    if db.document_links.any (fun l =>
        l.source_doc_id == s && l.target_doc_id == t &&
        l.relationship_type == ty) then
      ⟨errorResponse 409 "Link already exists", db⟩
    else
      let row : DocumentLinkRow :=
        { id := db.next_id, source_doc_id := s, target_doc_id := t,
          relationship_type := ty, notes := jsOrNull req.notes,
          created_by := username, created_at := db.now }
      ⟨{ status := 201 },
       { db with document_links := db.document_links ++ [row],
                 next_id := db.next_id + 1 }⟩

/-- Path parameter of `DELETE /@docs/links/:id`. -/
structure LinkDeleteReq where
  id : Nat
  deriving Repr, DecidableEq

/-- `DELETE /@docs/links/:id`: `DELETE ... RETURNING *`; no returned row
means 404, otherwise 204 with a null body. -/
def deleteDocLink (db : DB) (req : LinkDeleteReq) : Response × DB :=
  let deleted := db.document_links.filter (fun l => l.id == req.id)
  let db2 : DB :=
    { db with document_links := db.document_links.filter (fun l => !(l.id == req.id)) }
  if deleted.isEmpty then ⟨errorResponse 404 "Link not found", db2⟩
  else ⟨{ status := 204 }, db2⟩

/-! ### `GET /@docs/draft` (src/routes/docs/drafts.js) -/

/-- `GET /@docs/draft`: the draft joined with its document by slug. -/
def getDocDraft (db : DB) (req : DocViewReq) : Response :=
  if ! jsTruthyStr req.slug then errorResponse 400 "Document slug required"
  else
    let rows := db.doc_drafts.filter (fun dr =>
      db.docs.any (fun d => d.id == dr.doc_id && d.slug == req.slug.getD ""))
    if rows.isEmpty then errorResponse 404 "No draft found for this document"
    else { status := 200 }

/-! ### Evidence endpoints (src/routes/qms/evidence.js) -/

/-- Query of the evidence read endpoints. -/
structure EvidenceQuery where
  document_id : Option String
  deriving Repr, DecidableEq

/-- `GET /@qms/evidence`: all evidence rows for a document. -/
def getQmsEvidence (db : DB) (req : EvidenceQuery) : Response :=
  if ! jsTruthyStr req.document_id then
    errorResponse 400 "document_id query parameter required"
  else { status := 200 }

/-- `GET /@qms/evidence/summary`: completeness summary (a schema view). -/
def getQmsEvidenceSummary (db : DB) (req : EvidenceQuery) : Response :=
  if ! jsTruthyStr req.document_id then
    errorResponse 400 "document_id query parameter required"
  else { status := 200 }

/-- The `VALID_EVIDENCE_TYPES` whitelist of `POST /@qms/evidence`. -/
def VALID_EVIDENCE_TYPES : List String :=
  ["justification", "qualification", "coi_declaration", "review_comment",
   "self_review_checklist", "approval_justification", "change_classification",
   "rejection_feedback"]

/-- Body of `POST /@qms/evidence`; `evidence_data` is carried opaquely. -/
structure EvidencePostReq where
  document_id : Option String
  transition_id : Option Nat
  evidence_type : Option String
  evidence_data : Option String
  evidence_text : Option String
  user : Option String
  deriving Repr, DecidableEq

/-- `POST /@qms/evidence`: record standalone evidence. -/
def postQmsEvidence (db : DB) (req : EvidencePostReq) : Response × DB :=
  if ! (jsTruthyStr req.document_id && jsTruthyStr req.evidence_type &&
        jsTruthyStr req.evidence_data) then
    ⟨errorResponse 400
      "Required fields: document_id, evidence_type, evidence_data", db⟩
  else if ! (VALID_EVIDENCE_TYPES.contains (req.evidence_type.getD "")) then
    ⟨errorResponse 400
      ("Invalid evidence_type. Valid types: " ++
        String.intercalate ", " VALID_EVIDENCE_TYPES), db⟩
  else if (db.controlled_documents.filter
      (fun cd => cd.document_id == req.document_id.getD "")).isEmpty then
    ⟨errorResponse 404 "Document not found", db⟩
  else if jsTruthyNat req.transition_id then
    if (db.document_transitions.filter (fun t =>
        t.id == req.transition_id.getD 0 &&
        t.document_id == req.document_id.getD "")).isEmpty then
      ⟨errorResponse 404 "Transition not found for this document", db⟩
    else
      ⟨{ status := 201 },
       insertEvidence db (req.document_id.getD "") req.transition_id
         (req.evidence_type.getD "") (req.evidence_data.getD "")
         (jsOrNull req.evidence_text) (req.user.getD "unknown")⟩
  else
    ⟨{ status := 201 },
     insertEvidence db (req.document_id.getD "") none
       (req.evidence_type.getD "") (req.evidence_data.getD "")
       (jsOrNull req.evidence_text) (req.user.getD "unknown")⟩

/-! ### Remaining training endpoints (src/routes/qms/training.js) -/

/-- `GET /@qms/training/modules`: active modules, always a 200 listing. -/
def getTrainingModules (db : DB) : Response := { status := 200 }

/-- `GET /@qms/training/session`: the user's sessions (all, or the most
relevant one for a module); every branch answers 200 (a missing session is
`session: null`, not an error). -/
def getTrainingSession (db : DB) : Response := { status := 200 }

/-- `p` is a prefix of `s` (the `LIKE 'p%'` pattern), structurally on the
character lists so that witnesses evaluate. -/
def listStartsWith : List Char → List Char → Bool
  | [], _ => true
  | _ :: _, [] => false
  | p :: ps, c :: cs => p == c && listStartsWith ps cs

def strStartsWith (p s : String) : Bool := listStartsWith p.data s.data

/-- Body of `POST /@qms/training/session/start`. -/
structure StartTrainingReq where
  module_code : Option String
  user : Option String
  deriving Repr, DecidableEq

/-- `POST /@qms/training/session/start`: create the training document, its
register entry, the create transition and the session.  The generated id is
`TST-TRN-{user}-{date}`; the wall-clock date fragment is rendered from the
transaction clock `now` (date formatting itself is outside the model), and
the `LIKE 'training/{id}%'` collision count appends a suffix as in the
source. -/
def postTrainingStart (db : DB) (req : StartTrainingReq) : Response × DB :=
  let userId := req.user.getD "unknown"
  if ! jsTruthyStr req.module_code then
    ⟨errorResponse 400 "module_code is required", db⟩
  else
    match db.training_modules.find? (fun m =>
        m.module_code == req.module_code.getD "" && m.active) with
    | none => ⟨errorResponse 404 "Training module not found or inactive", db⟩
    | some m =>
      if db.training_sessions.any (fun s =>
          s.user_id == userId && s.module_id == m.id &&
          s.status == "in_progress") then
        ⟨errorResponse 409 "You already have an in-progress session for this module", db⟩
      else
        let dateStr := toString db.now
        let docId0 := "TST-TRN-" ++ userId ++ "-" ++ dateStr
        let collisions := (db.docs.filter (fun d =>
            strStartsWith ("training/" ++ docId0) d.slug)).length
        let docId :=
          if collisions > 0 then docId0 ++ "-" ++ toString (collisions + 1)
          else docId0
        let slug := "training/" ++ docId
        let title := "Training Document: " ++ docId
        let bodyMd := String.intercalate "\n"
          ["# " ++ title, "",
           "**Module:** " ++ m.title,
           "**SOP Reference:** " ++ m.sop_reference.getD "null",
           "**Trainee:** " ++ userId,
           "**Created:** " ++ dateStr,
           "", "---", "", "## Purpose", "",
           "This is a training document created as part of the QMS competence certification process. ",
           "Edit this document to demonstrate your ability to use the document control system.",
           "", "## Content", "",
           "*Replace this section with your own content during training.*",
           ""]
        -- 1. INSERT INTO i18n.docs (columns not in the INSERT take their
        -- schema defaults, which are not under src/)
        let newDoc : DocRow :=
          { id := db.next_id, slug := slug, file_path := slug ++ ".md",
            title := some title, body_md := some bodyMd, frontmatter := none,
            version := some "0.1", author := some userId,
            is_edited := false, edited_by := none, updated_at := db.now }
        let db1 : DB :=
          { db with docs := db.docs ++ [newDoc], next_id := db.next_id + 1 }
        -- 2. INSERT INTO qms.controlled_documents
        let newCd : ControlledDocRow :=
          { id := db1.next_id, document_id := docId, title := some title,
            document_type := some "REC", domain_code := some "HR",
            version := some "0.1", status := some "draft",
            classification := some "internal", effective_date := none,
            next_review_date := none, owner := some userId,
            author := some userId, reviewer := none, approver := none,
            implementsDoc := none, retention_years := none,
            retention_basis := none, location := none,
            docs_id := some newDoc.id, body_md := some bodyMd,
            notes := some ("Training document for module " ++ m.module_code),
            updated_at := db.now }
        let db2 : DB :=
          { db1 with controlled_documents := db1.controlled_documents ++ [newCd],
                     next_id := db1.next_id + 1 }
        -- 3. record the create transition
        let tr : TransitionRow :=
          { id := db2.next_id, document_id := docId, action := "create",
            from_status := none, to_status := some "draft",
            from_version := none, to_version := some "0.1",
            performed_by := userId,
            comment := some ("Training session started for " ++ m.module_code),
            evidence_ref := none, performed_at := db.now }
        let db3 : DB :=
          { db2 with document_transitions := db2.document_transitions ++ [tr],
                     next_id := db2.next_id + 1 }
        -- 4. create the training session
        let sess : TrainingSessionRow :=
          { id := db3.next_id, user_id := userId, module_id := m.id,
            training_doc_id := some docId, current_step := 1,
            status := "in_progress", completed_at := none,
            certificate_id := none }
        ⟨{ status := 201 },
         { db3 with training_sessions := db3.training_sessions ++ [sess],
                    next_id := db3.next_id + 1 }⟩

/-- Query of `GET /@qms/training/certificate`. -/
structure CertificateQuery where
  certificate_id : Option String
  deriving Repr, DecidableEq

/-- `GET /@qms/training/certificate`: certificate joined with its session
and module. -/
def getTrainingCertificate (db : DB) (req : CertificateQuery) : Response :=
  if ! jsTruthyStr req.certificate_id then
    errorResponse 400 "certificate_id query parameter required"
  else
    let rows := db.training_certificates.filter (fun tc =>
      tc.certificate_id == req.certificate_id.getD "" &&
      db.training_sessions.any (fun ts => ts.id == tc.session_id &&
        db.training_modules.any (fun tm => tm.id == ts.module_id)))
    if rows.isEmpty then errorResponse 404 "Certificate not found"
    else { status := 200 }

/-! ### Remaining QMS register endpoints (src/routes/qms/qms.js) -/

/-- `GET /@qms/dashboard`: overview counts, always 200. -/
def getQmsDashboard (db : DB) : Response := { status := 200 }

/-- `GET /@qms/register`: the filtered register listing, always 200. -/
def getQmsRegister (db : DB) : Response := { status := 200 }

/-- `GET /@qms/register/unregistered`: KB documents without a register
entry, always 200. -/
def getQmsUnregistered (db : DB) : Response := { status := 200 }

/-- `GET /@qms/reviews`: upcoming and overdue reviews, always 200. -/
def getQmsReviews (db : DB) : Response := { status := 200 }

/-- `GET /@qms/external`: external standards listing, always 200. -/
def getQmsExternal (db : DB) : Response := { status := 200 }

/-- `GET /@qms/issues`: the filtered problem-report listing, always 200. -/
def getQmsIssues (db : DB) : Response := { status := 200 }

/-- Path parameter of `GET /@qms/register/:document_id`. -/
structure QmsDocParam where
  document_id : String
  deriving Repr, DecidableEq

/-- `GET /@qms/register/:document_id`: register row with transitions and
evidence (the LEFT JOIN on `i18n.docs` never drops the row). -/
def getQmsDocument (db : DB) (req : QmsDocParam) : Response :=
  if ! docIdOk req.document_id then
    errorResponse 400 "Invalid document ID format"
  else if (db.controlled_documents.filter
      (fun cd => cd.document_id == req.document_id)).isEmpty then
    errorResponse 404 "Document not found"
  else { status := 200 }

/-- Body of `POST /@qms/register` (destructuring defaults as in source). -/
structure PostQmsReq where
  document_id : Option String
  title : Option String
  document_type : Option String
  domain_code : Option String
  version : Option String
  status : Option String
  classification : Option String
  effective_date : Option Nat
  next_review_date : Option Nat
  owner : Option String
  author : Option String
  reviewer : Option String
  approver : Option String
  implementsDoc : Option String
  retention_years : Option Int
  retention_basis : Option String
  location : Option String
  docs_id : Option Nat
  body_md : Option String
  notes : Option String
  user : Option String
  deriving Repr, DecidableEq

/-- `POST /@qms/register`: insert a register row and its create
transition. -/
def postQmsDocument (db : DB) (req : PostQmsReq) : Response × DB :=
  if ! (jsTruthyStr req.document_id && jsTruthyStr req.title &&
        jsTruthyStr req.document_type && jsTruthyStr req.domain_code) then
    ⟨errorResponse 400
      "Required fields: document_id, title, document_type, domain_code", db⟩
  else
    let performed_by := req.user.getD "unknown"
    let version := req.version.getD "0.1"
    let status := req.status.getD "draft"
    let newCd : ControlledDocRow :=
      { id := db.next_id, document_id := req.document_id.getD "",
        title := req.title, document_type := req.document_type,
        domain_code := req.domain_code, version := some version,
        status := some status,
        classification := some (req.classification.getD "internal"),
        effective_date := jsOrNullNat req.effective_date,
        next_review_date := jsOrNullNat req.next_review_date,
        owner := jsOrNull req.owner, author := jsOrNull req.author,
        reviewer := jsOrNull req.reviewer, approver := jsOrNull req.approver,
        implementsDoc := jsOrNull req.implementsDoc,
        retention_years := some (req.retention_years.getD 10),
        retention_basis := some (req.retention_basis.getD "EU MDR Art 10.8"),
        location := jsOrNull req.location,
        docs_id := jsOrNullNat req.docs_id,
        body_md := jsOrNull req.body_md, notes := jsOrNull req.notes,
        updated_at := db.now }
    let db1 : DB :=
      { db with controlled_documents := db.controlled_documents ++ [newCd],
                next_id := db.next_id + 1 }
    let tr : TransitionRow :=
      { id := db1.next_id, document_id := req.document_id.getD "",
        action := "create", from_status := none, to_status := some status,
        from_version := none, to_version := some version,
        performed_by := performed_by, comment := some "Created via web UI",
        evidence_ref := none, performed_at := db.now }
    ⟨{ status := 201 },
     { db1 with document_transitions := db1.document_transitions ++ [tr],
                next_id := db1.next_id + 1 }⟩

/-- Body of `POST /@qms/register/from-kb` and one item of the batch
variant. -/
structure FromKbReq where
  docs_id : Option Nat
  document_id : Option String
  title : Option String
  document_type : Option String
  domain_code : Option String
  version : Option String
  status : Option String
  classification : Option String
  notes : Option String
  user : Option String
  deriving Repr, DecidableEq

/-- `POST /@qms/register/from-kb`: register an existing KB document. -/
def postQmsFromKb (db : DB) (req : FromKbReq) : Response × DB :=
  if ! (jsTruthyNat req.docs_id && jsTruthyStr req.document_id &&
        jsTruthyStr req.title && jsTruthyStr req.document_type &&
        jsTruthyStr req.domain_code) then
    ⟨errorResponse 400
      "Required fields: docs_id, document_id, title, document_type, domain_code", db⟩
  else
    match db.docs.find? (fun d => d.id == req.docs_id.getD 0) with
    | none => ⟨errorResponse 404 "Knowledge Base document not found", db⟩
    | some kbDoc =>
      let performed_by := req.user.getD "unknown"
      let version := req.version.getD "1.0"
      let status := req.status.getD "effective"
      let newCd : ControlledDocRow :=
        { id := db.next_id, document_id := req.document_id.getD "",
          title := req.title, document_type := req.document_type,
          domain_code := req.domain_code, version := some version,
          status := some status,
          classification := some (req.classification.getD "internal"),
          effective_date := none, next_review_date := none, owner := none,
          author := none, reviewer := none, approver := none,
          implementsDoc := none, retention_years := none,
          retention_basis := none, location := some kbDoc.file_path,
          docs_id := req.docs_id, body_md := none,
          notes := some (jsOrDefault req.notes "Registered from Knowledge Base"),
          updated_at := db.now }
      let db1 : DB :=
        { db with controlled_documents := db.controlled_documents ++ [newCd],
                  next_id := db.next_id + 1 }
      let tr : TransitionRow :=
        { id := db1.next_id, document_id := req.document_id.getD "",
          action := "register", from_status := none, to_status := some status,
          from_version := none, to_version := some version,
          performed_by := performed_by,
          comment := some "Registered from Knowledge Base via reconciliation",
          evidence_ref := none, performed_at := db.now }
      ⟨{ status := 201 },
       { db1 with document_transitions := db1.document_transitions ++ [tr],
                  next_id := db1.next_id + 1 }⟩

/-- Body of `POST /@qms/register/from-kb/batch` (`none` = `items` is not
an array). -/
structure KbBatchReq where
  items : Option (List FromKbReq)
  user : Option String
  deriving Repr, DecidableEq

/-- One iteration of the batch loop: a bad or unknown item pushes onto
`errors`, a good one inserts the register row and its transition; the
accumulator carries `(registered count, error count)`. -/
def kbBatchStep (performed_by : String) (acc : (Nat × Nat) × DB)
    (item : FromKbReq) : (Nat × Nat) × DB :=
  let counts := acc.1
  let db := acc.2
  if ! (jsTruthyNat item.docs_id && jsTruthyStr item.document_id &&
        jsTruthyStr item.title && jsTruthyStr item.document_type &&
        jsTruthyStr item.domain_code) then
    ⟨⟨counts.1, counts.2 + 1⟩, db⟩
  else
    match db.docs.find? (fun d => d.id == item.docs_id.getD 0) with
    | none => ⟨⟨counts.1, counts.2 + 1⟩, db⟩
    | some kbDoc =>
      let version := item.version.getD "1.0"
      let status := item.status.getD "effective"
      let newCd : ControlledDocRow :=
        { id := db.next_id, document_id := item.document_id.getD "",
          title := item.title, document_type := item.document_type,
          domain_code := item.domain_code, version := some version,
          status := some status,
          classification := some (item.classification.getD "internal"),
          effective_date := none, next_review_date := none, owner := none,
          author := none, reviewer := none, approver := none,
          implementsDoc := none, retention_years := none,
          retention_basis := none, location := some kbDoc.file_path,
          docs_id := item.docs_id, body_md := none,
          notes := some (jsOrDefault item.notes "Batch registered from Knowledge Base"),
          updated_at := db.now }
      let db1 : DB :=
        { db with controlled_documents := db.controlled_documents ++ [newCd],
                  next_id := db.next_id + 1 }
      let tr : TransitionRow :=
        { id := db1.next_id, document_id := item.document_id.getD "",
          action := "register", from_status := none, to_status := some status,
          from_version := none, to_version := some version,
          performed_by := performed_by,
          comment := some "Batch registered from Knowledge Base via reconciliation",
          evidence_ref := none, performed_at := db.now }
      ⟨⟨counts.1 + 1, counts.2⟩,
       { db1 with document_transitions := db1.document_transitions ++ [tr],
                  next_id := db1.next_id + 1 }⟩

/-- `POST /@qms/register/from-kb/batch`: per-item registration; item
failures are collected, not raised, and the response is always 201 once
the items array is present and non-empty. -/
def postQmsFromKbBatch (db : DB) (req : KbBatchReq) : Response × DB :=
  match req.items with
  | none => ⟨errorResponse 400 "Required: items array with registration data", db⟩
  | some items =>
    if items.isEmpty then
      ⟨errorResponse 400 "Required: items array with registration data", db⟩
    else
      let r := items.foldl (kbBatchStep (req.user.getD "unknown")) ⟨⟨0, 0⟩, db⟩
      ⟨{ status := 201 }, r.2⟩

/-- Path parameter of `GET /@qms/issues/:report_id`. -/
structure IssueParam where
  report_id : String
  deriving Repr, DecidableEq

/-- `GET /@qms/issues/:report_id`: the problem report joined with its three
status/severity/type vocabularies (inner joins, so a row shows only when
all three codes resolve); the links fetch cannot fail. -/
def getQmsIssue (db : DB) (req : IssueParam) : Response :=
  let rows := db.problem_reports.filter (fun pr =>
    pr.report_id == req.report_id &&
    db.ref_problem_statuses.any (fun s => s.code == pr.status) &&
    db.ref_problem_severities.any (fun s => s.code == pr.severity) &&
    db.ref_problem_types.any (fun t => t.code == pr.problem_type))
  if rows.isEmpty then errorResponse 404 "Issue not found"
  else { status := 200 }

/-! ### Polyglot/translation endpoints (src/routes/polyglot/polyglot.js)

None of the nine handlers contains a conditional status return: every
response is a 200 JSON payload (missing rows surface as empty listings or
null fields, and model-level failures are raised to the framework, not
mapped by the handler).  The content-store updates of the two
`/@translations` write endpoints live on the framework's `Document` model,
outside the tables this embedding carries. -/

def getPolyglotCoverage (db : DB) : Response := { status := 200 }

def getPolyglotLanguage (db : DB) : Response := { status := 200 }

def getPolyglotTranslations (db : DB) : Response := { status := 200 }

def getPolyglotMessage (db : DB) : Response := { status := 200 }

def getPolyglotGlossary (db : DB) : Response := { status := 200 }

def getTranslations (db : DB) : Response := { status := 200 }

def unlinkTranslation (db : DB) : Response := { status := 200 }

def linkTranslation (db : DB) : Response := { status := 200 }

def getTranslationLocation (db : DB) : Response := { status := 200 }

/-! ### Sequences of draft operations (for the one-draft-per-document
invariant) -/

inductive DraftOp where
  | put (req : PutDraftReq)
  | submit (req : SubmitReq)
  | reject (req : RejectReq)
  | approve (req : ApproveReq)
  | del (req : DeleteDraftReq)
  deriving Repr, DecidableEq

def applyDraftOp (db : DB) (op : DraftOp) : DB :=
  match op with
  | .put req => (putDocDraft db req).2
  | .submit req => (postDocDraftSubmit db req).2
  | .reject req => (postDocDraftReject db req).2
  | .approve req => (postDocDraftApprove db req).2
  | .del req => (deleteDocDraft db req).2

def applyDraftOps (db : DB) (ops : List DraftOp) : DB :=
  ops.foldl applyDraftOp db

/-- Well-formedness of a drafts table against a serial counter `N`:
distinct `doc_id`s (the upsert conflict key), distinct primary keys, and
every primary key below the counter. -/
def wfList (l : List DraftRow) (N : Nat) : Prop :=
  l.Pairwise (fun a b => a.doc_id ≠ b.doc_id) ∧
  l.Pairwise (fun a b => a.id ≠ b.id) ∧
  ∀ r ∈ l, r.id < N

/-- Database well-formedness around `i18n.doc_drafts`. -/
def wellFormedDrafts (db : DB) : Prop :=
  wfList db.doc_drafts db.next_id

/-! ## Frame lemmas

Each write step touches a known set of tables; the remaining components of
the state are unchanged.  These lemmas let the per-claim proofs track one
table through the approve pipeline. -/

theorem insertVersionIfAbsent_docs (db : DB) (row : DocVersionRow) :
    (insertVersionIfAbsent db row).docs = db.docs := by
  unfold insertVersionIfAbsent; split <;> rfl

theorem insertVersionIfAbsent_drafts (db : DB) (row : DocVersionRow) :
    (insertVersionIfAbsent db row).doc_drafts = db.doc_drafts := by
  unfold insertVersionIfAbsent; split <;> rfl

theorem insertVersionIfAbsent_controlled (db : DB) (row : DocVersionRow) :
    (insertVersionIfAbsent db row).controlled_documents = db.controlled_documents := by
  unfold insertVersionIfAbsent; split <;> rfl

theorem insertVersionIfAbsent_transitions (db : DB) (row : DocVersionRow) :
    (insertVersionIfAbsent db row).document_transitions = db.document_transitions := by
  unfold insertVersionIfAbsent; split <;> rfl

theorem insertVersionIfAbsent_evidence (db : DB) (row : DocVersionRow) :
    (insertVersionIfAbsent db row).document_evidence = db.document_evidence := by
  unfold insertVersionIfAbsent; split <;> rfl

theorem insertVersionIfAbsent_refs (db : DB) (row : DocVersionRow) :
    (insertVersionIfAbsent db row).ref_evidence_types = db.ref_evidence_types := by
  unfold insertVersionIfAbsent; split <;> rfl

theorem insertVersionIfAbsent_next_id (db : DB) (row : DocVersionRow) :
    (insertVersionIfAbsent db row).next_id = db.next_id := by
  unfold insertVersionIfAbsent; split <;> rfl

theorem insertEvidence_drafts (db : DB) (a : String) (b : Option Nat) (c d : String)
    (e : Option String) (f : String) :
    (insertEvidence db a b c d e f).doc_drafts = db.doc_drafts := rfl

theorem insertEvidence_docs (db : DB) (a : String) (b : Option Nat) (c d : String)
    (e : Option String) (f : String) :
    (insertEvidence db a b c d e f).docs = db.docs := rfl

theorem insertEvidence_versions (db : DB) (a : String) (b : Option Nat) (c d : String)
    (e : Option String) (f : String) :
    (insertEvidence db a b c d e f).doc_versions = db.doc_versions := rfl

theorem insertEvidence_controlled (db : DB) (a : String) (b : Option Nat) (c d : String)
    (e : Option String) (f : String) :
    (insertEvidence db a b c d e f).controlled_documents = db.controlled_documents := rfl

theorem insertEvidence_transitions (db : DB) (a : String) (b : Option Nat) (c d : String)
    (e : Option String) (f : String) :
    (insertEvidence db a b c d e f).document_transitions = db.document_transitions := rfl

theorem approveStaged_drafts (db : DB) (d : DocRow) (dr : DraftRow) (u cv : String) :
    (approveStaged db d dr u cv).doc_drafts = db.doc_drafts := by
  unfold approveStaged applyDraftToDocs supersedeOld snapshotPrevVersion
  rw [insertVersionIfAbsent_drafts]

theorem approveStaged_controlled (db : DB) (d : DocRow) (dr : DraftRow) (u cv : String) :
    (approveStaged db d dr u cv).controlled_documents = db.controlled_documents := by
  unfold approveStaged applyDraftToDocs supersedeOld snapshotPrevVersion
  rw [insertVersionIfAbsent_controlled]

theorem approveStaged_transitions (db : DB) (d : DocRow) (dr : DraftRow) (u cv : String) :
    (approveStaged db d dr u cv).document_transitions = db.document_transitions := by
  unfold approveStaged applyDraftToDocs supersedeOld snapshotPrevVersion
  rw [insertVersionIfAbsent_transitions]

theorem approveStaged_evidence (db : DB) (d : DocRow) (dr : DraftRow) (u cv : String) :
    (approveStaged db d dr u cv).document_evidence = db.document_evidence := by
  unfold approveStaged applyDraftToDocs supersedeOld snapshotPrevVersion
  rw [insertVersionIfAbsent_evidence]

theorem approveStaged_refs (db : DB) (d : DocRow) (dr : DraftRow) (u cv : String) :
    (approveStaged db d dr u cv).ref_evidence_types = db.ref_evidence_types := by
  unfold approveStaged applyDraftToDocs supersedeOld snapshotPrevVersion
  rw [insertVersionIfAbsent_refs]

theorem approveStaged_next_id (db : DB) (d : DocRow) (dr : DraftRow) (u cv : String) :
    (approveStaged db d dr u cv).next_id = db.next_id := by
  unfold approveStaged applyDraftToDocs supersedeOld snapshotPrevVersion
  rw [insertVersionIfAbsent_next_id]

theorem approveStaged_docs (db : DB) (d : DocRow) (dr : DraftRow) (u cv : String) :
    (approveStaged db d dr u cv).docs =
      db.docs.map (fun x =>
        if x.id == d.id then
          { x with
            title := match dr.title with | some t => some t | none => x.title,
            body_md := match dr.body_md with | some b => some b | none => x.body_md,
            version := some dr.version,
            frontmatter := if dr.frontmatter.isSome then dr.frontmatter else x.frontmatter,
            is_edited := true, edited_by := some u,
            updated_at := (supersedeOld (snapshotPrevVersion db d u cv) d.id dr.version).now }
        else x) := by
  unfold approveStaged applyDraftToDocs supersedeOld snapshotPrevVersion
  rw [insertVersionIfAbsent_docs]

theorem approveStaged_versions (db : DB) (d : DocRow) (dr : DraftRow) (u cv : String) :
    (approveStaged db d dr u cv).doc_versions =
      (snapshotPrevVersion db d u cv).doc_versions.map
        (supersedeFn d.id dr.version (snapshotPrevVersion db d u cv).now) := by
  unfold approveStaged applyDraftToDocs supersedeOld
  rfl

theorem getQmsDocumentId_congr (db db' : DB) (i : Nat)
    (h : db'.controlled_documents = db.controlled_documents) :
    getQmsDocumentId db' i = getQmsDocumentId db i := by
  unfold getQmsDocumentId; rw [h]

theorem missingEvidenceTypes_congr (db db' : DB) (q : String)
    (h1 : db'.ref_evidence_types = db.ref_evidence_types)
    (h2 : db'.document_evidence = db.document_evidence) :
    missingEvidenceTypes db' q = missingEvidenceTypes db q := by
  unfold missingEvidenceTypes; rw [h1, h2]

/-! ## C10: `bumpVersion` and its use from `POST /@docs/save` -/

/-- A valid bump type never hits the throwing branch. -/
theorem bumpVersion_isSome_of_valid (v b : String)
    (h : b = "patch" ∨ b = "minor" ∨ b = "major") : bumpVersion v b ≠ none := by
  unfold bumpVersion
  rcases h with h | h | h <;> subst h <;> simp

/-- C10: on a version string of one to three dot-separated decimal numeric
parts `M(.m(.p))` (missing parts treated as 0), `bumpVersion` yields
`(M+1).0.0` / `M.(m+1).0` / `M.m.(p+1)` for `major`/`minor`/`patch` and
throws (`none`) on any other bump argument; the `POST /@docs/save` handler
rejects any other `version_bump` with a 400 before calling it, so the
throwing branch is unreachable: `postDocsSave` never propagates a throw. -/
theorem bumpVersion_bump_spec :
    (∀ (v : String) (vs : List Nat),
      (splitOnDot v).map jsNumber = vs.map some →
      1 ≤ vs.length → vs.length ≤ 3 →
      bumpVersion v "major" = some (toString (vs.getD 0 0 + 1) ++ ".0.0") ∧
      bumpVersion v "minor" =
        some (toString (vs.getD 0 0) ++ "." ++ toString (vs.getD 1 0 + 1) ++ ".0") ∧
      bumpVersion v "patch" =
        some (toString (vs.getD 0 0) ++ "." ++ toString (vs.getD 1 0) ++ "." ++
              toString (vs.getD 2 0 + 1)) ∧
      ∀ b : String, b ≠ "major" → b ≠ "minor" → b ≠ "patch" →
        bumpVersion v b = none) ∧
    (∀ (db : DB) (req : SaveReq),
      jsTruthyNat req.doc_id = true → jsTruthyStr req.body_md = true →
      jsTruthyStr req.version_bump = true → jsTruthyStr req.change_summary = true →
      ["patch", "minor", "major"].contains (req.version_bump.getD "") = false →
      postDocsSave db req = .ok ⟨errorResponse 400 "Invalid version_bump", db⟩) ∧
    (∀ (db : DB) (req : SaveReq), (postDocsSave db req).isOk = true) := by
  refine ⟨?_, ?_, ?_⟩
  · intro v vs hmap h1 h3
    unfold bumpVersion
    rw [hmap]
    rcases vs with _ | ⟨a, _ | ⟨b, _ | ⟨c, _ | ⟨d, tl⟩⟩⟩⟩
    · simp at h1
    · refine ⟨by simp [showNum, jsAdd1], by simp [showNum, jsAdd1],
        by simp [showNum, jsAdd1], ?_⟩
      intro b hb1 hb2 hb3
      simp [hb1, hb2, hb3]
    · refine ⟨by simp [showNum, jsAdd1], by simp [showNum, jsAdd1],
        by simp [showNum, jsAdd1], ?_⟩
      intro x hb1 hb2 hb3
      simp [hb1, hb2, hb3]
    · refine ⟨by simp [showNum, jsAdd1], by simp [showNum, jsAdd1],
        by simp [showNum, jsAdd1], ?_⟩
      intro x hb1 hb2 hb3
      simp [hb1, hb2, hb3]
    · simp at h3
  · intro db req ha hb hc hd hcont
    unfold postDocsSave
    rw [ha, hb, hc, hd, hcont]
    simp
  · intro db req
    unfold postDocsSave
    split
    · rfl
    · split
      · rfl
      · rename_i hcont
        split
        · rfl
        · split
          · rfl
          · split
            · rename_i hbump
              exfalso
              have hc : (["patch", "minor", "major"].contains (req.version_bump.getD "")) = true := by
                revert hcont
                cases ["patch", "minor", "major"].contains (req.version_bump.getD "") <;> simp
              have hmem : req.version_bump.getD "" = "patch" ∨
                  req.version_bump.getD "" = "minor" ∨
                  req.version_bump.getD "" = "major" := by
                simpa using hc
              exact bumpVersion_isSome_of_valid _ _ hmem hbump
            · dsimp only
              split <;> rfl

/-- Witness for C10 at the concrete version string `"1.2.3"`. -/
theorem bumpVersion_bump_spec_witness :
    (splitOnDot "1.2.3").map jsNumber = [1, 2, 3].map some ∧
    bumpVersion "1.2.3" "major" = some (toString ([1, 2, 3].getD 0 0 + 1) ++ ".0.0") ∧
    bumpVersion "1.2.3" "bogus" = none := by
  have h := bumpVersion_bump_spec.1 "1.2.3" [1, 2, 3] (by decide) (by decide) (by decide)
  exact ⟨by decide, h.1, h.2.2.2 "bogus" (by decide) (by decide) (by decide)⟩

/-! ## Evaluation of the approve handler on its branches -/

/-- On the 422 path (QMS-registered document with missing required
evidence), the approve handler answers 422 with the missing list and the
state it returns is exactly the staged writes of steps 2-4. -/
theorem approve_eval_422 (db : DB) (req : ApproveReq) (d : DocRow) (dr : DraftRow)
    (qid : String)
    (h1 : jsTruthyStr req.slug = true)
    (h2 : db.docs.find? (fun x => x.slug == req.slug.getD "") = some d)
    (h3 : db.doc_drafts.find? (fun r => r.doc_id == d.id) = some dr)
    (h4 : dr.status = "in_review")
    (h5 : getQmsDocumentId db d.id = some qid)
    (h6 : missingEvidenceTypes db qid ≠ []) :
    postDocDraftApprove db req =
      ⟨{ status := 422,
         error := some "Cannot approve: required evidence is missing",
         missing_evidence := (missingEvidenceTypes db qid).map (fun r => (r.code, r.label)) },
       approveStaged db d dr (req.user.getD "unknown") (jsOrDefault d.version "0.0")⟩ := by
  have hq : getQmsDocumentId
      (approveStaged db d dr (req.user.getD "unknown") (jsOrDefault d.version "0.0")) d.id
      = some qid := by
    rw [getQmsDocumentId_congr db
      (approveStaged db d dr (req.user.getD "unknown") (jsOrDefault d.version "0.0")) d.id
      (approveStaged_controlled db d dr (req.user.getD "unknown")
        (jsOrDefault d.version "0.0"))]
    exact h5
  have hm : missingEvidenceTypes
      (approveStaged db d dr (req.user.getD "unknown") (jsOrDefault d.version "0.0")) qid
      = missingEvidenceTypes db qid :=
    missingEvidenceTypes_congr db
      (approveStaged db d dr (req.user.getD "unknown") (jsOrDefault d.version "0.0")) qid
      (approveStaged_refs db d dr (req.user.getD "unknown") (jsOrDefault d.version "0.0"))
      (approveStaged_evidence db d dr (req.user.getD "unknown") (jsOrDefault d.version "0.0"))
  have hne : (missingEvidenceTypes db qid).isEmpty = false := by
    cases hE : (missingEvidenceTypes db qid).isEmpty
    · rfl
    · exact absurd (List.isEmpty_iff.mp hE) h6
  unfold postDocDraftApprove
  rw [h1]
  simp only [Bool.not_true, Bool.false_eq_true, if_false, h2, h3, h4]
  simp only [ne_eq, not_true_eq_false, if_false, hq, hm, hne]
  simp

/-- No document with the slug: 404, state untouched. -/
theorem approve_eval_404_nodoc (db : DB) (req : ApproveReq)
    (h1 : jsTruthyStr req.slug = true)
    (h2 : db.docs.find? (fun x => x.slug == req.slug.getD "") = none) :
    postDocDraftApprove db req =
      ⟨errorResponse 404 "No draft found for this document", db⟩ := by
  unfold postDocDraftApprove
  rw [h1]
  simp only [Bool.not_true, Bool.false_eq_true, if_false, h2]

/-- Document exists but has no draft row: 404, state untouched. -/
theorem approve_eval_404_nodraft (db : DB) (req : ApproveReq) (d : DocRow)
    (h1 : jsTruthyStr req.slug = true)
    (h2 : db.docs.find? (fun x => x.slug == req.slug.getD "") = some d)
    (h3 : db.doc_drafts.find? (fun r => r.doc_id == d.id) = none) :
    postDocDraftApprove db req =
      ⟨errorResponse 404 "No draft found for this document", db⟩ := by
  unfold postDocDraftApprove
  rw [h1]
  simp only [Bool.not_true, Bool.false_eq_true, if_false, h2, h3]

/-- Draft exists but is not in review: 409, state untouched. -/
theorem approve_eval_409 (db : DB) (req : ApproveReq) (d : DocRow) (dr : DraftRow)
    (h1 : jsTruthyStr req.slug = true)
    (h2 : db.docs.find? (fun x => x.slug == req.slug.getD "") = some d)
    (h3 : db.doc_drafts.find? (fun r => r.doc_id == d.id) = some dr)
    (h4 : dr.status ≠ "in_review") :
    postDocDraftApprove db req =
      ⟨errorResponse 409 "Cannot approve: draft status is not in_review", db⟩ := by
  unfold postDocDraftApprove
  rw [h1]
  simp only [Bool.not_true, Bool.false_eq_true, if_false, h2, h3, h4]
  simp [h4]

/-- Success path of a QMS-registered document whose evidence gate passes:
the handler equals the full write pipeline. -/
theorem approve_eval_success_qms (db : DB) (req : ApproveReq) (d : DocRow) (dr : DraftRow)
    (qid : String)
    (h1 : jsTruthyStr req.slug = true)
    (h2 : db.docs.find? (fun x => x.slug == req.slug.getD "") = some d)
    (h3 : db.doc_drafts.find? (fun r => r.doc_id == d.id) = some dr)
    (h4 : dr.status = "in_review")
    (h5 : getQmsDocumentId db d.id = some qid)
    (h6 : missingEvidenceTypes db qid = []) :
    postDocDraftApprove db req =
      approveFinish
        (setQmsEffective
          (approveEvidence
            (recordApproveTransition
              (approveStaged db d dr (req.user.getD "unknown") (jsOrDefault d.version "0.0"))
              qid (jsOrDefault d.version "0.0") dr.version (req.user.getD "unknown")
              req.comment).2
            qid
            (recordApproveTransition
              (approveStaged db d dr (req.user.getD "unknown") (jsOrDefault d.version "0.0"))
              qid (jsOrDefault d.version "0.0") dr.version (req.user.getD "unknown")
              req.comment).1
            req (req.user.getD "unknown"))
          d.id dr.version)
        d dr (req.user.getD "unknown") := by
  have hq : getQmsDocumentId
      (approveStaged db d dr (req.user.getD "unknown") (jsOrDefault d.version "0.0")) d.id
      = some qid := by
    rw [getQmsDocumentId_congr db
      (approveStaged db d dr (req.user.getD "unknown") (jsOrDefault d.version "0.0")) d.id
      (approveStaged_controlled db d dr (req.user.getD "unknown")
        (jsOrDefault d.version "0.0"))]
    exact h5
  have hm : missingEvidenceTypes
      (approveStaged db d dr (req.user.getD "unknown") (jsOrDefault d.version "0.0")) qid
      = missingEvidenceTypes db qid :=
    missingEvidenceTypes_congr db
      (approveStaged db d dr (req.user.getD "unknown") (jsOrDefault d.version "0.0")) qid
      (approveStaged_refs db d dr (req.user.getD "unknown") (jsOrDefault d.version "0.0"))
      (approveStaged_evidence db d dr (req.user.getD "unknown") (jsOrDefault d.version "0.0"))
  have hne : (missingEvidenceTypes db qid).isEmpty = true := by
    rw [h6]; rfl
  unfold postDocDraftApprove
  rw [h1]
  simp only [Bool.not_true, Bool.false_eq_true, if_false, h2, h3, h4]
  simp only [ne_eq, not_true_eq_false, if_false, hq, hm, hne]
  simp

/-- Success path of a document that is not QMS-registered. -/
theorem approve_eval_success_noqms (db : DB) (req : ApproveReq) (d : DocRow) (dr : DraftRow)
    (h1 : jsTruthyStr req.slug = true)
    (h2 : db.docs.find? (fun x => x.slug == req.slug.getD "") = some d)
    (h3 : db.doc_drafts.find? (fun r => r.doc_id == d.id) = some dr)
    (h4 : dr.status = "in_review")
    (h5 : getQmsDocumentId db d.id = none) :
    postDocDraftApprove db req =
      approveFinish
        (approveStaged db d dr (req.user.getD "unknown") (jsOrDefault d.version "0.0"))
        d dr (req.user.getD "unknown") := by
  have hq : getQmsDocumentId
      (approveStaged db d dr (req.user.getD "unknown") (jsOrDefault d.version "0.0")) d.id
      = none := by
    rw [getQmsDocumentId_congr db
      (approveStaged db d dr (req.user.getD "unknown") (jsOrDefault d.version "0.0")) d.id
      (approveStaged_controlled db d dr (req.user.getD "unknown")
        (jsOrDefault d.version "0.0"))]
    exact h5
  unfold postDocDraftApprove
  rw [h1]
  simp only [Bool.not_true, Bool.false_eq_true, if_false, h2, h3, h4]
  simp only [ne_eq, not_true_eq_false, if_false, hq]

/-! ## Sample database states for concrete witnesses -/

def emptyDB : DB :=
  { docs := [], doc_drafts := [], doc_versions := [], controlled_documents := [],
    document_transitions := [], document_evidence := [], ref_evidence_types := [],
    training_modules := [], training_sessions := [], training_certificates := [],
    user_roles := [], training_step_completions := [], users := [],
    ref_relationship_types := [], document_links := [], problem_reports := [],
    ref_problem_statuses := [], ref_problem_severities := [],
    ref_problem_types := [],
    now := 100, next_id := 10 }

def docA : DocRow :=
  { id := 1, slug := "sop-1", title := some "T", body_md := some "Body",
    frontmatter := none, version := some "1.0", author := some "amy",
    is_edited := false, edited_by := none, updated_at := 0 }

def draftA : DraftRow :=
  { id := 2, doc_id := 1, version := "1.1", title := some "T2",
    body_md := some "Body2", frontmatter := none, status := "in_review",
    created_by := "amy", updated_by := "amy", created_at := 0, updated_at := 0,
    reviewer_notes := none }

def cdA : ControlledDocRow :=
  { id := 3, document_id := "SOP-1", title := some "T", document_type := some "SOP",
    domain_code := some "DC", version := some "1.0", status := some "in_review",
    classification := some "internal", effective_date := none,
    next_review_date := none, owner := none, author := none, reviewer := none,
    approver := none, implementsDoc := none, retention_years := some 10,
    retention_basis := none, location := none, docs_id := some 1, body_md := none,
    notes := none, updated_at := 0 }

def refJust : RefEvidenceType :=
  { code := "justification", label := "Justification", required := true, phase := 1 }

def dbApprove : DB :=
  { emptyDB with
    docs := [docA], doc_drafts := [draftA],
    controlled_documents := [cdA], ref_evidence_types := [refJust] }

def reqApprove : ApproveReq :=
  { slug := some "sop-1", comment := none, checklist := none,
    approval_justification := none, change_classification := none,
    user := some "bob" }

/-! ## C1: the evidence gate of the approve endpoint -/

/-- C1: on an approval request for a QMS-registered document whose draft
is `in_review`, if some required phase <= 2 evidence type has no
non-superseded evidence row, the handler answers 422 carrying the missing
types and neither inserts an `approve` row into `qms.document_transitions`
nor touches `qms.controlled_documents` (so the register is not set
`effective`). -/
theorem approve_evidence_gate (db : DB) (req : ApproveReq) (d : DocRow) (dr : DraftRow)
    (qid : String)
    (h1 : jsTruthyStr req.slug = true)
    (h2 : db.docs.find? (fun x => x.slug == req.slug.getD "") = some d)
    (h3 : db.doc_drafts.find? (fun r => r.doc_id == d.id) = some dr)
    (h4 : dr.status = "in_review")
    (h5 : getQmsDocumentId db d.id = some qid)
    (h6 : missingEvidenceTypes db qid ≠ []) :
    (postDocDraftApprove db req).1.status = 422 ∧
    (postDocDraftApprove db req).1.missing_evidence =
      (missingEvidenceTypes db qid).map (fun r => (r.code, r.label)) ∧
    (postDocDraftApprove db req).2.document_transitions = db.document_transitions ∧
    (postDocDraftApprove db req).2.controlled_documents = db.controlled_documents := by
  rw [approve_eval_422 db req d dr qid h1 h2 h3 h4 h5 h6]
  exact ⟨rfl, rfl,
    approveStaged_transitions db d dr (req.user.getD "unknown") (jsOrDefault d.version "0.0"),
    approveStaged_controlled db d dr (req.user.getD "unknown") (jsOrDefault d.version "0.0")⟩

/-- Witness for C1 on a one-document register missing its justification
evidence. -/
theorem approve_evidence_gate_witness :
    (postDocDraftApprove dbApprove reqApprove).1.status = 422 ∧
    (postDocDraftApprove dbApprove reqApprove).2.document_transitions
      = dbApprove.document_transitions ∧
    (postDocDraftApprove dbApprove reqApprove).2.controlled_documents
      = dbApprove.controlled_documents := by
  have h := approve_evidence_gate dbApprove reqApprove docA draftA "SOP-1"
    (by decide) (by decide) (by decide) (by decide) (by decide) (by decide)
  exact ⟨h.1, h.2.2.1, h.2.2.2⟩

/-! ## C2: 404/409 gates of the approve endpoint -/

/-- C2: `POST /@docs/draft/approve` answers 404 when the slug resolves to
no document or the document has no draft row, answers 409 (leaving the
state untouched) when the draft exists in any status other than
`in_review`, and publishes (status 200) only from `in_review`. -/
theorem approve_status_gates :
    (∀ (db : DB) (req : ApproveReq),
      jsTruthyStr req.slug = true →
      db.docs.find? (fun x => x.slug == req.slug.getD "") = none →
      postDocDraftApprove db req =
        ⟨errorResponse 404 "No draft found for this document", db⟩) ∧
    (∀ (db : DB) (req : ApproveReq) (d : DocRow),
      jsTruthyStr req.slug = true →
      db.docs.find? (fun x => x.slug == req.slug.getD "") = some d →
      db.doc_drafts.find? (fun r => r.doc_id == d.id) = none →
      postDocDraftApprove db req =
        ⟨errorResponse 404 "No draft found for this document", db⟩) ∧
    (∀ (db : DB) (req : ApproveReq) (d : DocRow) (dr : DraftRow),
      jsTruthyStr req.slug = true →
      db.docs.find? (fun x => x.slug == req.slug.getD "") = some d →
      db.doc_drafts.find? (fun r => r.doc_id == d.id) = some dr →
      dr.status ≠ "in_review" →
      postDocDraftApprove db req =
        ⟨errorResponse 409 "Cannot approve: draft status is not in_review", db⟩) ∧
    (∀ (db : DB) (req : ApproveReq) (d : DocRow) (dr : DraftRow),
      jsTruthyStr req.slug = true →
      db.docs.find? (fun x => x.slug == req.slug.getD "") = some d →
      db.doc_drafts.find? (fun r => r.doc_id == d.id) = some dr →
      (postDocDraftApprove db req).1.status = 200 →
      dr.status = "in_review") := by
  refine ⟨approve_eval_404_nodoc, approve_eval_404_nodraft, approve_eval_409, ?_⟩
  intro db req d dr h1 h2 h3 h200
  by_contra hne
  rw [approve_eval_409 db req d dr h1 h2 h3 hne] at h200
  simp [errorResponse] at h200

/-- Witness for C2: a slug with no document, a draft still in status
`draft`, and the successful 200 publish of `dbApprove` once its register
entry is removed (not QMS-registered, so the gate does not interfere). -/
theorem approve_status_gates_witness :
    postDocDraftApprove { emptyDB with docs := [docA] }
        { reqApprove with slug := some "nope" } =
      ⟨errorResponse 404 "No draft found for this document", { emptyDB with docs := [docA] }⟩ ∧
    postDocDraftApprove
        { emptyDB with docs := [docA], doc_drafts := [{ draftA with status := "draft" }] }
        reqApprove =
      ⟨errorResponse 409 "Cannot approve: draft status is not in_review",
       { emptyDB with docs := [docA], doc_drafts := [{ draftA with status := "draft" }] }⟩ := by
  constructor
  · exact approve_status_gates.1 _ _ (by decide) (by decide)
  · exact approve_status_gates.2.2.1 _ _ docA { draftA with status := "draft" }
      (by decide) (by decide) (by decide) (by decide)

/-! ## C6: transaction atomicity on error statuses -/

/-- C6: under the framework transaction, any handler result with an error
status leaves the database unchanged; in particular the 422
missing-evidence answer of `POST /@docs/draft/approve` rolls back the
version snapshot, the superseding and the `i18n.docs` update staged
earlier in the same handler. -/
theorem runTx_error_atomicity :
    (∀ (h : DB → Response × DB) (db : DB),
      400 ≤ (runTx h db).1.status → (runTx h db).2 = db) ∧
    (∀ (db : DB) (req : ApproveReq) (d : DocRow) (dr : DraftRow) (qid : String),
      jsTruthyStr req.slug = true →
      db.docs.find? (fun x => x.slug == req.slug.getD "") = some d →
      db.doc_drafts.find? (fun r => r.doc_id == d.id) = some dr →
      dr.status = "in_review" →
      getQmsDocumentId db d.id = some qid →
      missingEvidenceTypes db qid ≠ [] →
      (postDocDraftApprove db req).1.status = 422 ∧
      runTx (fun s => postDocDraftApprove s req) db =
        ⟨(postDocDraftApprove db req).1, db⟩) := by
  constructor
  · intro h db hge
    by_cases hc : 400 ≤ (h db).1.status
    · simp [runTx, hc]
    · have heq : runTx h db = h db := by simp [runTx, hc]
      rw [heq] at hge
      exact absurd hge hc
  · intro db req d dr qid h1 h2 h3 h4 h5 h6
    have heval := approve_eval_422 db req d dr qid h1 h2 h3 h4 h5 h6
    constructor
    · rw [heval]
    · have hrtx : runTx (fun s => postDocDraftApprove s req) db =
        if 400 ≤ (postDocDraftApprove db req).1.status
        then ((postDocDraftApprove db req).1, db)
        else postDocDraftApprove db req := rfl
      rw [hrtx, heval]
      simp

/-- Witness for C6 at the concrete 422 scenario. -/
theorem runTx_error_atomicity_witness :
    (postDocDraftApprove dbApprove reqApprove).1.status = 422 ∧
    runTx (fun s => postDocDraftApprove s reqApprove) dbApprove =
      ⟨(postDocDraftApprove dbApprove reqApprove).1, dbApprove⟩ :=
  runTx_error_atomicity.2 dbApprove reqApprove docA draftA "SOP-1"
    (by decide) (by decide) (by decide) (by decide) (by decide) (by decide)

/-! ## C3: effects of a successful approval -/

theorem jsTruthyStr_isSome {a : Option String} (h : jsTruthyStr a = true) :
    ∃ s, a = some s := by
  cases a with
  | none => simp [jsTruthyStr] at h
  | some s => exact ⟨s, rfl⟩

theorem jsOrOpt_truthy {a b : Option String} (h : jsTruthyStr a = true) :
    jsOrOpt a b = a := by
  unfold jsOrOpt
  rw [h]
  simp

/-- `supersedeFn` only touches the superseded columns. -/
theorem supersedeFn_fields (i : Nat) (nv : String) (t : Nat) (v : DocVersionRow) :
    (supersedeFn i nv t v).doc_id = v.doc_id ∧ (supersedeFn i nv t v).version = v.version ∧
    (supersedeFn i nv t v).title = v.title ∧ (supersedeFn i nv t v).body_md = v.body_md := by
  unfold supersedeFn
  split <;> exact ⟨rfl, rfl, rfl, rfl⟩

/-- Key lookups see through the supersede pass. -/
theorem any_key_supersedeMap (l : List DocVersionRow) (i : Nat) (nv : String) (t : Nat)
    (a : Nat) (b : String) :
    ((l.map (supersedeFn i nv t)).any (fun v => v.doc_id == a && v.version == b)) =
    (l.any (fun v => v.doc_id == a && v.version == b)) := by
  rw [List.any_map]
  have h : ((fun v : DocVersionRow => v.doc_id == a && v.version == b) ∘ supersedeFn i nv t)
      = (fun v : DocVersionRow => v.doc_id == a && v.version == b) := by
    funext v
    simp only [Function.comp_apply, (supersedeFn_fields i nv t v).1,
      (supersedeFn_fields i nv t v).2.1]
  rw [h]

theorem insertVersionIfAbsent_mem_self (db : DB) (row : DocVersionRow)
    (h : db.doc_versions.any (fun v => v.doc_id == row.doc_id && v.version == row.version)
         = false) :
    row ∈ (insertVersionIfAbsent db row).doc_versions := by
  simp [insertVersionIfAbsent, h]

theorem insertVersionIfAbsent_mem_mono (db : DB) (row v : DocVersionRow)
    (h : v ∈ db.doc_versions) :
    v ∈ (insertVersionIfAbsent db row).doc_versions := by
  unfold insertVersionIfAbsent
  split
  · exact h
  · simp [h]

/-- With no pre-existing `(doc_id, version)` snapshot, step 2 appends. -/
theorem snapshotPrevVersion_fresh (db : DB) (d : DocRow) (u cv : String)
    (h : db.doc_versions.any (fun v => v.doc_id == d.id && v.version == cv) = false) :
    (snapshotPrevVersion db d u cv).doc_versions
      = db.doc_versions ++ [prevVersionRow db d u cv] := by
  unfold snapshotPrevVersion insertVersionIfAbsent
  have : (db.doc_versions.any (fun v =>
      v.doc_id == (prevVersionRow db d u cv).doc_id &&
      v.version == (prevVersionRow db d u cv).version)) = false := h
  rw [this]
  simp

theorem recordApproveTransition_versions (db : DB) (q cv nv u : String) (c : Option String) :
    (recordApproveTransition db q cv nv u c).2.doc_versions = db.doc_versions := rfl

theorem recordApproveTransition_docs (db : DB) (q cv nv u : String) (c : Option String) :
    (recordApproveTransition db q cv nv u c).2.docs = db.docs := rfl

theorem recordApproveTransition_drafts (db : DB) (q cv nv u : String) (c : Option String) :
    (recordApproveTransition db q cv nv u c).2.doc_drafts = db.doc_drafts := rfl

theorem recordApproveTransition_controlled (db : DB) (q cv nv u : String) (c : Option String) :
    (recordApproveTransition db q cv nv u c).2.controlled_documents
      = db.controlled_documents := rfl

theorem approveEvidence_versions (db : DB) (q : String) (t : Nat) (req : ApproveReq)
    (u : String) : (approveEvidence db q t req u).doc_versions = db.doc_versions := by
  unfold approveEvidence
  dsimp only
  split <;> split <;> split <;> rfl

theorem approveEvidence_docs (db : DB) (q : String) (t : Nat) (req : ApproveReq)
    (u : String) : (approveEvidence db q t req u).docs = db.docs := by
  unfold approveEvidence
  dsimp only
  split <;> split <;> split <;> rfl

theorem approveEvidence_drafts (db : DB) (q : String) (t : Nat) (req : ApproveReq)
    (u : String) : (approveEvidence db q t req u).doc_drafts = db.doc_drafts := by
  unfold approveEvidence
  dsimp only
  split <;> split <;> split <;> rfl

theorem approveEvidence_controlled (db : DB) (q : String) (t : Nat) (req : ApproveReq)
    (u : String) : (approveEvidence db q t req u).controlled_documents
      = db.controlled_documents := by
  unfold approveEvidence
  dsimp only
  split <;> split <;> split <;> rfl

theorem setQmsEffective_versions (db : DB) (i : Nat) (nv : String) :
    (setQmsEffective db i nv).doc_versions = db.doc_versions := rfl

theorem setQmsEffective_docs (db : DB) (i : Nat) (nv : String) :
    (setQmsEffective db i nv).docs = db.docs := rfl

theorem setQmsEffective_drafts (db : DB) (i : Nat) (nv : String) :
    (setQmsEffective db i nv).doc_drafts = db.doc_drafts := rfl

/-- After step 5c every register row of the document is effective at the
new version. -/
theorem setQmsEffective_mem (db : DB) (i : Nat) (nv : String) :
    ∀ cd ∈ (setQmsEffective db i nv).controlled_documents, cd.docs_id = some i →
      cd.status = some "effective" ∧ cd.version = some nv := by
  intro cd hmem hid
  unfold setQmsEffective at hmem
  dsimp only at hmem
  rcases List.mem_map.mp hmem with ⟨cd0, _, rfl⟩
  by_cases hc : (cd0.docs_id == some i) = true
  · simp [hc]
  · rw [if_neg hc] at hid
    exact absurd (beq_iff_eq.mpr hid) hc

theorem approveFinish_docs (db : DB) (d : DocRow) (dr : DraftRow) (u : String) :
    (approveFinish db d dr u).2.docs = db.docs := by
  unfold approveFinish
  dsimp only
  rw [insertVersionIfAbsent_docs]

theorem approveFinish_controlled (db : DB) (d : DocRow) (dr : DraftRow) (u : String) :
    (approveFinish db d dr u).2.controlled_documents = db.controlled_documents := by
  unfold approveFinish
  dsimp only
  rw [insertVersionIfAbsent_controlled]

theorem approveFinish_drafts (db : DB) (d : DocRow) (dr : DraftRow) (u : String) :
    (approveFinish db d dr u).2.doc_drafts
      = db.doc_drafts.filter (fun r => r.id != dr.id) := by
  unfold approveFinish
  dsimp only
  rw [insertVersionIfAbsent_drafts]

theorem approveFinish_versions (db : DB) (d : DocRow) (dr : DraftRow) (u : String) :
    (approveFinish db d dr u).2.doc_versions
      = (insertVersionIfAbsent db (newVersionRow db d dr u)).doc_versions := by
  unfold approveFinish
  dsimp only

theorem approveFinish_fst (db : DB) (d : DocRow) (dr : DraftRow) (u : String) :
    (approveFinish db d dr u).1 = { status := 200, versionOut := some dr.version } := rfl

/-- Post-state facts shared by both registration cases of a successful
approval: `Y` is the state reaching steps 6-7, agreeing with the staged
writes on the document tables. -/
theorem approve_post_core (db Y : DB) (d : DocRow) (dr : DraftRow) (uid cv : String)
    (hYv : Y.doc_versions = (approveStaged db d dr uid cv).doc_versions)
    (hYd : Y.docs = (approveStaged db d dr uid cv).docs)
    (hf1 : db.doc_versions.any (fun v => v.doc_id == d.id && v.version == cv) = false)
    (hf2 : db.doc_versions.any (fun v => v.doc_id == d.id && v.version == dr.version)
           = false)
    (hne : cv ≠ dr.version)
    (hT : jsTruthyStr dr.title = true)
    (hB : jsTruthyStr dr.body_md = true) :
    (∃ v ∈ (approveFinish Y d dr uid).2.doc_versions,
      v.doc_id = d.id ∧ v.version = cv ∧ v.title = d.title ∧ v.body_md = d.body_md) ∧
    (∀ x ∈ (approveFinish Y d dr uid).2.docs, x.id = d.id →
      x.title = dr.title ∧ x.body_md = dr.body_md ∧ x.version = some dr.version) ∧
    (∃ v ∈ (approveFinish Y d dr uid).2.doc_versions,
      v.doc_id = d.id ∧ v.version = dr.version ∧ v.title = dr.title ∧
      v.body_md = dr.body_md) ∧
    (∀ r ∈ (approveFinish Y d dr uid).2.doc_drafts, r.id ≠ dr.id) := by
  have hstagedv : (approveStaged db d dr uid cv).doc_versions =
      (db.doc_versions ++ [prevVersionRow db d uid cv]).map
        (supersedeFn d.id dr.version (snapshotPrevVersion db d uid cv).now) := by
    rw [approveStaged_versions, snapshotPrevVersion_fresh db d uid cv hf1]
  refine ⟨?_, ?_, ?_, ?_⟩
  · -- the previous effective content is snapshotted
    refine ⟨supersedeFn d.id dr.version (snapshotPrevVersion db d uid cv).now
      (prevVersionRow db d uid cv), ?_, ?_⟩
    · rw [approveFinish_versions]
      apply insertVersionIfAbsent_mem_mono
      rw [hYv, hstagedv]
      exact List.mem_map_of_mem _ (by simp)
    · obtain ⟨e1, e2, e3, e4⟩ := supersedeFn_fields d.id dr.version
        (snapshotPrevVersion db d uid cv).now (prevVersionRow db d uid cv)
      rw [e1, e2, e3, e4]
      exact ⟨rfl, rfl, rfl, rfl⟩
  · -- the draft content replaces the effective document
    intro x hx hxid
    rw [approveFinish_docs, hYd, approveStaged_docs] at hx
    rcases List.mem_map.mp hx with ⟨x0, _, rfl⟩
    obtain ⟨t, ht⟩ := jsTruthyStr_isSome hT
    obtain ⟨b, hb⟩ := jsTruthyStr_isSome hB
    by_cases hc : (x0.id == d.id) = true
    · simp [hc, ht, hb]
    · rw [if_neg hc] at hxid
      exact absurd (beq_iff_eq.mpr hxid) hc
  · -- the new version snapshot exists
    have hYkey : (Y.doc_versions.any (fun v =>
        v.doc_id == d.id && v.version == dr.version)) = false := by
      rw [hYv, hstagedv, any_key_supersedeMap]
      simp only [List.any_append, hf2, Bool.false_or, List.any_cons, List.any_nil,
        Bool.or_false, prevVersionRow]
      simp [beq_eq_false_iff_ne.mpr hne]
    refine ⟨newVersionRow Y d dr uid, ?_, ?_⟩
    · rw [approveFinish_versions]
      exact insertVersionIfAbsent_mem_self Y (newVersionRow Y d dr uid)
        (by simpa [newVersionRow] using hYkey)
    · refine ⟨rfl, rfl, ?_, ?_⟩
      · show jsOrOpt dr.title d.title = dr.title
        exact jsOrOpt_truthy hT
      · show jsOrOpt dr.body_md d.body_md = dr.body_md
        exact jsOrOpt_truthy hB
  · -- the draft row is deleted
    intro r hr
    rw [approveFinish_drafts] at hr
    have := (List.mem_filter.mp hr).2
    simpa using this

/-- C3: a successful approval of an `in_review` draft (status 200)
snapshots the previous effective content into `i18n.doc_versions`, copies
the draft's title/body/version onto the `i18n.docs` row, inserts the new
version's snapshot, deletes the draft row, and, when the document is
QMS-registered, sets `qms.controlled_documents` to status `effective` at
the draft's version.  The freshness hypotheses say the two `(doc_id,
version)` snapshot keys are not yet taken (the `ON CONFLICT DO NOTHING`
inserts would otherwise keep the older snapshot content), and the draft
carries a title, a body and a bumped version, as drafts saved through
`PUT /@docs/draft` do. -/
theorem approve_success_effects (db : DB) (req : ApproveReq) (d : DocRow) (dr : DraftRow)
    (h1 : jsTruthyStr req.slug = true)
    (h2 : db.docs.find? (fun x => x.slug == req.slug.getD "") = some d)
    (h3 : db.doc_drafts.find? (fun r => r.doc_id == d.id) = some dr)
    (h4 : dr.status = "in_review")
    (hreg : getQmsDocumentId db d.id = none ∨
            ∃ qid, getQmsDocumentId db d.id = some qid ∧
                   missingEvidenceTypes db qid = [])
    (hf1 : db.doc_versions.any (fun v =>
        v.doc_id == d.id && v.version == jsOrDefault d.version "0.0") = false)
    (hf2 : db.doc_versions.any (fun v =>
        v.doc_id == d.id && v.version == dr.version) = false)
    (hne : jsOrDefault d.version "0.0" ≠ dr.version)
    (hT : jsTruthyStr dr.title = true)
    (hB : jsTruthyStr dr.body_md = true) :
    (postDocDraftApprove db req).1.status = 200 ∧
    (∃ v ∈ (postDocDraftApprove db req).2.doc_versions,
      v.doc_id = d.id ∧ v.version = jsOrDefault d.version "0.0" ∧
      v.title = d.title ∧ v.body_md = d.body_md) ∧
    (∀ x ∈ (postDocDraftApprove db req).2.docs, x.id = d.id →
      x.title = dr.title ∧ x.body_md = dr.body_md ∧ x.version = some dr.version) ∧
    (∃ v ∈ (postDocDraftApprove db req).2.doc_versions,
      v.doc_id = d.id ∧ v.version = dr.version ∧ v.title = dr.title ∧
      v.body_md = dr.body_md) ∧
    (∀ r ∈ (postDocDraftApprove db req).2.doc_drafts, r.id ≠ dr.id) ∧
    (∀ qid2, getQmsDocumentId db d.id = some qid2 →
      ∀ cd ∈ (postDocDraftApprove db req).2.controlled_documents,
        cd.docs_id = some d.id →
        cd.status = some "effective" ∧ cd.version = some dr.version) := by
  rcases hreg with hnone | ⟨qid, hq, hm⟩
  · have heval := approve_eval_success_noqms db req d dr h1 h2 h3 h4 hnone
    have core := approve_post_core db
      (approveStaged db d dr (req.user.getD "unknown") (jsOrDefault d.version "0.0"))
      d dr (req.user.getD "unknown") (jsOrDefault d.version "0.0")
      rfl rfl hf1 hf2 hne hT hB
    rw [heval]
    refine ⟨rfl, core.1, core.2.1, core.2.2.1, core.2.2.2, ?_⟩
    intro qid2 hq2
    rw [hnone] at hq2
    exact absurd hq2 (by simp)
  · have heval := approve_eval_success_qms db req d dr qid h1 h2 h3 h4 hq hm
    have hYv : (setQmsEffective
        (approveEvidence
          (recordApproveTransition
            (approveStaged db d dr (req.user.getD "unknown")
              (jsOrDefault d.version "0.0"))
            qid (jsOrDefault d.version "0.0") dr.version (req.user.getD "unknown")
            req.comment).2
          qid
          (recordApproveTransition
            (approveStaged db d dr (req.user.getD "unknown")
              (jsOrDefault d.version "0.0"))
            qid (jsOrDefault d.version "0.0") dr.version (req.user.getD "unknown")
            req.comment).1
          req (req.user.getD "unknown"))
        d.id dr.version).doc_versions
        = (approveStaged db d dr (req.user.getD "unknown")
            (jsOrDefault d.version "0.0")).doc_versions := by
      rw [setQmsEffective_versions, approveEvidence_versions,
        recordApproveTransition_versions]
    have hYd : (setQmsEffective
        (approveEvidence
          (recordApproveTransition
            (approveStaged db d dr (req.user.getD "unknown")
              (jsOrDefault d.version "0.0"))
            qid (jsOrDefault d.version "0.0") dr.version (req.user.getD "unknown")
            req.comment).2
          qid
          (recordApproveTransition
            (approveStaged db d dr (req.user.getD "unknown")
              (jsOrDefault d.version "0.0"))
            qid (jsOrDefault d.version "0.0") dr.version (req.user.getD "unknown")
            req.comment).1
          req (req.user.getD "unknown"))
        d.id dr.version).docs
        = (approveStaged db d dr (req.user.getD "unknown")
            (jsOrDefault d.version "0.0")).docs := by
      rw [setQmsEffective_docs, approveEvidence_docs, recordApproveTransition_docs]
    have core := approve_post_core db _ d dr (req.user.getD "unknown")
      (jsOrDefault d.version "0.0") hYv hYd hf1 hf2 hne hT hB
    rw [heval]
    refine ⟨rfl, core.1, core.2.1, core.2.2.1, core.2.2.2, ?_⟩
    intro qid2 hq2 cd hcd hid
    rw [approveFinish_controlled] at hcd
    exact setQmsEffective_mem _ d.id dr.version cd hcd hid

/-- A draft on a document that is not QMS-registered, ready to publish. -/
def dbApprove2 : DB := { emptyDB with docs := [docA], doc_drafts := [draftA] }

/-- Witness for C3: publishing draft 1.1 over effective 1.0 succeeds and
removes the draft row. -/
theorem approve_success_effects_witness :
    (postDocDraftApprove dbApprove2 reqApprove).1.status = 200 ∧
    (∀ r ∈ (postDocDraftApprove dbApprove2 reqApprove).2.doc_drafts, r.id ≠ draftA.id) := by
  have h := approve_success_effects dbApprove2 reqApprove docA draftA
    (by decide) (by decide) (by decide) (by decide) (Or.inl (by decide))
    (by decide) (by decide) (by decide) (by decide) (by decide)
  exact ⟨h.1, h.2.2.2.2.1⟩

/-! ## C5: transition audit rows on status/version changes -/

/-- A PUT body that moves the register entry to `obsolete`. -/
def reqPutQms : PutQmsReq :=
  { document_id := "SOP-1", title := none, document_type := none, domain_code := none,
    version := none, status := some "obsolete", classification := none,
    effective_date := none, next_review_date := none, owner := none, author := none,
    reviewer := none, approver := none, implementsDoc := none, retention_years := none,
    retention_basis := none, location := none, docs_id := none, body_md := none,
    notes := none }

/-- Counterexample to C5 as stated: `PUT /@qms/register/SOP-1` changes the
controlled document's status from `in_review` to `obsolete` and succeeds,
yet `qms.document_transitions` stays empty — no audit row is inserted in
the same request. -/
theorem putQms_status_change_without_transition :
    cdA.status = some "in_review" ∧
    (putQmsDocument { emptyDB with controlled_documents := [cdA] } reqPutQms).1.status
      = 200 ∧
    ((putQmsDocument { emptyDB with controlled_documents := [cdA] }
        reqPutQms).2.controlled_documents.map (fun cd => cd.status))
      = [some "obsolete"] ∧
    (putQmsDocument { emptyDB with controlled_documents := [cdA] }
        reqPutQms).2.document_transitions = [] := by
  decide

/-- C5 amended: `POST /@qms/register/:document_id/transition` inserts an
audit row recording the from/to status and version of every change it
makes, while `PUT /@qms/register/:document_id` changes status/version
without ever inserting into `qms.document_transitions`. -/
theorem qms_transition_audit :
    (∀ (db : DB) (req : PutQmsReq),
      (putQmsDocument db req).2.document_transitions = db.document_transitions) ∧
    (∀ (db : DB) (req : TransitionReq) (current : ControlledDocRow),
      docIdOk req.document_id = true →
      jsTruthyStr req.action = true →
      db.controlled_documents.find? (fun cd => cd.document_id == req.document_id)
        = some current →
      ∃ row : TransitionRow,
        (postQmsTransition db req).2.document_transitions
          = db.document_transitions ++ [row] ∧
        row.document_id = req.document_id ∧
        row.from_status = current.status ∧
        row.to_status = jsOrOpt req.to_status current.status ∧
        row.from_version = current.version ∧
        row.to_version = jsOrOpt req.to_version current.version) := by
  constructor
  · intro db req
    unfold putQmsDocument
    split
    · rfl
    · split
      · rfl
      · split
        · rfl
        · rfl
  · intro db req current hid hact hfind
    unfold postQmsTransition
    rw [hid, hact]
    simp only [Bool.not_true, Bool.false_eq_true, if_false, hfind]
    let row : TransitionRow :=
      { id := db.next_id, document_id := req.document_id,
        action := req.action.getD "", from_status := current.status,
        to_status := jsOrOpt req.to_status current.status,
        from_version := current.version,
        to_version := jsOrOpt req.to_version current.version,
        performed_by := req.user.getD "unknown", comment := jsOrOpt req.comment none,
        evidence_ref := jsOrOpt req.evidence_ref none, performed_at := db.now }
    refine ⟨row, ?_, rfl, rfl, rfl, rfl, rfl⟩
    split <;> rfl

/-- Witness for the amended C5 at a concrete transition request. -/
theorem qms_transition_audit_witness :
    ∃ row : TransitionRow,
      (postQmsTransition { emptyDB with controlled_documents := [cdA] }
        { document_id := "SOP-1", action := some "approve",
          to_status := some "effective", to_version := some "1.1",
          comment := none, evidence_ref := none,
          user := some "bob" }).2.document_transitions = [] ++ [row] ∧
      row.document_id = "SOP-1" ∧
      row.from_status = cdA.status ∧
      row.to_status = jsOrOpt (some "effective") cdA.status ∧
      row.from_version = cdA.version ∧
      row.to_version = jsOrOpt (some "1.1") cdA.version :=
  qms_transition_audit.2 { emptyDB with controlled_documents := [cdA] }
    { document_id := "SOP-1", action := some "approve",
      to_status := some "effective", to_version := some "1.1",
      comment := none, evidence_ref := none, user := some "bob" }
    cdA (by decide) (by decide) (by decide)

/-! ## C9: steps are validated strictly in order -/

/-- Step-number mismatch: 409, state untouched. -/
theorem validateStep_eval_order_409 (db : DB) (req : ValidateStepReq) (n : Int)
    (ts : TrainingSessionRow) (tm : TrainingModuleRow)
    (h0 : jsTruthyNat req.session_id = true)
    (hn : req.step_number = some n)
    (hts : db.training_sessions.find? (fun x => x.id == req.session_id.getD 0) = some ts)
    (htm : db.training_modules.find? (fun x => x.id == ts.module_id) = some tm)
    (huser : ts.user_id = req.user.getD "unknown")
    (hprog : ts.status = "in_progress")
    (horder : n ≠ ts.current_step) :
    postTrainingValidateStep db req =
      ⟨errorResponse 409 "Unexpected step number. Complete steps in order.", db⟩ := by
  have hcond : (! jsTruthyNat req.session_id || req.step_number == none) = false := by
    rw [h0, hn]; rfl
  unfold postTrainingValidateStep
  simp only [hcond, Bool.false_eq_true, if_false, hn, Option.getD_some, hts, htm,
    huser, hprog, ne_eq, not_true_eq_false, if_false]
  simp [horder, h0]

/-- Matching step number with a passing validator: the handler records the
completion and either completes the session (final step) or advances it. -/
theorem validateStep_eval_ok (db : DB) (req : ValidateStepReq) (n : Int)
    (ts : TrainingSessionRow) (tm : TrainingModuleRow) (stepDef : StepDef)
    (dl : Nat × String)
    (h0 : jsTruthyNat req.session_id = true)
    (hn : req.step_number = some n)
    (hts : db.training_sessions.find? (fun x => x.id == req.session_id.getD 0) = some ts)
    (htm : db.training_modules.find? (fun x => x.id == ts.module_id) = some tm)
    (huser : ts.user_id = req.user.getD "unknown")
    (hprog : ts.status = "in_progress")
    (horder : n = ts.current_step)
    (hstep : tm.steps.find? (fun s => s.step == n) = some stepDef)
    (hlookup : trainingDocLookup db ts.training_doc_id = some dl)
    (hval : runValidator stepDef.validation db dl.1 dl.2 = some true) :
    postTrainingValidateStep db req =
      if n == (tm.steps.length : Int) then
        trainingComplete
          (stepCompletionInsert db (req.session_id.getD 0) n stepDef
            (req.user.getD "unknown"))
          (req.session_id.getD 0) n tm (req.user.getD "unknown")
      else
        ⟨{ status := 200, okFlag := some true, completed := some false,
           current_step := some (n + 1) },
         advanceSession
           (stepCompletionInsert db (req.session_id.getD 0) n stepDef
             (req.user.getD "unknown"))
           (req.session_id.getD 0) n⟩ := by
  subst horder
  have hcond : (! jsTruthyNat req.session_id || req.step_number == none) = false := by
    rw [h0, hn]; rfl
  unfold postTrainingValidateStep
  simp only [hcond, Bool.false_eq_true, if_false, hn, Option.getD_some, hts, htm,
    huser, hprog, ne_eq, not_true_eq_false, if_false]
  simp [h0, hstep, hlookup, hval]

/-! ## C7: completion of the final training step -/

theorem stepCompletionInsert_sessions (db : DB) (sid : Nat) (n : Int) (sd : StepDef)
    (u : String) : (stepCompletionInsert db sid n sd u).training_sessions
      = db.training_sessions := by
  unfold stepCompletionInsert; split <;> rfl

theorem stepCompletionInsert_certs (db : DB) (sid : Nat) (n : Int) (sd : StepDef)
    (u : String) : (stepCompletionInsert db sid n sd u).training_certificates
      = db.training_certificates := by
  unfold stepCompletionInsert; split <;> rfl

theorem stepCompletionInsert_roles (db : DB) (sid : Nat) (n : Int) (sd : StepDef)
    (u : String) : (stepCompletionInsert db sid n sd u).user_roles = db.user_roles := by
  unfold stepCompletionInsert; split <;> rfl

theorem stepCompletionInsert_next_id (db : DB) (sid : Nat) (n : Int) (sd : StepDef)
    (u : String) : (stepCompletionInsert db sid n sd u).next_id = db.next_id := by
  unfold stepCompletionInsert; split <;> rfl

theorem upsertUserRole_sessions (db : DB) (u r g : String) :
    (upsertUserRole db u r g).training_sessions = db.training_sessions := by
  unfold upsertUserRole; split <;> rfl

theorem upsertUserRole_certs (db : DB) (u r g : String) :
    (upsertUserRole db u r g).training_certificates = db.training_certificates := by
  unfold upsertUserRole; split <;> rfl

theorem grantRoles_sessions (roles : List String) (db : DB) (u : String) :
    (grantRoles db u roles).training_sessions = db.training_sessions := by
  induction roles generalizing db with
  | nil => rfl
  | cons r rs ih =>
    show (grantRoles (upsertUserRole db u r "training-system") u rs).training_sessions = _
    rw [ih, upsertUserRole_sessions]

theorem grantRoles_certs (roles : List String) (db : DB) (u : String) :
    (grantRoles db u roles).training_certificates = db.training_certificates := by
  induction roles generalizing db with
  | nil => rfl
  | cons r rs ih =>
    show (grantRoles (upsertUserRole db u r "training-system") u rs).training_certificates = _
    rw [ih, upsertUserRole_certs]

/-- The upsert leaves an active grant for its own key. -/
theorem upsertUserRole_granted (db : DB) (u r g : String) :
    ∃ ur ∈ (upsertUserRole db u r g).user_roles,
      ur.user_id = u ∧ ur.role_code = r ∧ ur.active = true := by
  unfold upsertUserRole
  split
  · next hany =>
    rcases List.any_eq_true.mp hany with ⟨ur0, hmem, hkey⟩
    rcases (Bool.and_eq_true _ _).mp hkey with ⟨hu, hr⟩
    refine ⟨_, List.mem_map_of_mem _ hmem, ?_⟩
    rw [if_pos hkey]
    exact ⟨beq_iff_eq.mp hu, beq_iff_eq.mp hr, rfl⟩
  · exact ⟨_, List.mem_append_right _ (List.mem_singleton_self _), rfl, rfl, rfl⟩

/-- The upsert never deactivates an existing active grant. -/
theorem upsertUserRole_preserves (db : DB) (u r g u0 r0 : String)
    (h : ∃ ur ∈ db.user_roles, ur.user_id = u0 ∧ ur.role_code = r0 ∧ ur.active = true) :
    ∃ ur ∈ (upsertUserRole db u r g).user_roles,
      ur.user_id = u0 ∧ ur.role_code = r0 ∧ ur.active = true := by
  rcases h with ⟨ur, hmem, hu, hr, ha⟩
  unfold upsertUserRole
  split
  · refine ⟨_, List.mem_map_of_mem _ hmem, ?_⟩
    by_cases hkey : (ur.user_id == u && ur.role_code == r) = true
    · rw [if_pos hkey]
      exact ⟨hu, hr, rfl⟩
    · rw [if_neg hkey]
      exact ⟨hu, hr, ha⟩
  · exact ⟨ur, List.mem_append_left _ hmem, hu, hr, ha⟩

theorem grantRoles_preserves (roles : List String) (db : DB) (u u0 r0 : String)
    (h : ∃ ur ∈ db.user_roles, ur.user_id = u0 ∧ ur.role_code = r0 ∧ ur.active = true) :
    ∃ ur ∈ (grantRoles db u roles).user_roles,
      ur.user_id = u0 ∧ ur.role_code = r0 ∧ ur.active = true := by
  induction roles generalizing db with
  | nil => exact h
  | cons r rs ih =>
    show ∃ ur ∈ (grantRoles (upsertUserRole db u r "training-system") u rs).user_roles, _
    exact ih _ (upsertUserRole_preserves db u r "training-system" u0 r0 h)

/-- After the granting loop, every role of the list has an active grant. -/
theorem grantRoles_granted (roles : List String) (db : DB) (u : String) :
    ∀ role ∈ roles, ∃ ur ∈ (grantRoles db u roles).user_roles,
      ur.user_id = u ∧ ur.role_code = role ∧ ur.active = true := by
  induction roles generalizing db with
  | nil => simp
  | cons r rs ih =>
    intro role hrole
    rcases List.mem_cons.mp hrole with rfl | hmem
    · show ∃ ur ∈ (grantRoles (upsertUserRole db u role "training-system") u rs).user_roles, _
      exact grantRoles_preserves rs _ u u role
        (upsertUserRole_granted db u role "training-system")
    · show ∃ ur ∈ (grantRoles (upsertUserRole db u r "training-system") u rs).user_roles, _
      exact ih _ role hmem

/-- What the completion flow writes: a certificate row, the completed
session carrying its id, and an active grant for every module role. -/
theorem trainingComplete_spec (db : DB) (sid : Nat) (n : Int) (tm : TrainingModuleRow)
    (u : String) :
    (trainingComplete db sid n tm u).1.completed = some true ∧
    (trainingComplete db sid n tm u).1.certificate_id
      = some ("CERT-" ++ toString db.next_id) ∧
    (∃ c ∈ (trainingComplete db sid n tm u).2.training_certificates,
      c.certificate_id = "CERT-" ++ toString db.next_id ∧ c.session_id = sid ∧
      c.user_id = u ∧ c.qualified_for = tm.grants_roles) ∧
    (∀ s ∈ (trainingComplete db sid n tm u).2.training_sessions, s.id = sid →
      s.status = "completed" ∧
      s.certificate_id = some ("CERT-" ++ toString db.next_id)) ∧
    (∀ role ∈ tm.grants_roles, ∃ ur ∈ (trainingComplete db sid n tm u).2.user_roles,
      ur.user_id = u ∧ ur.role_code = role ∧ ur.active = true) := by
  refine ⟨rfl, rfl, ?_, ?_, ?_⟩
  · unfold trainingComplete
    dsimp only
    rw [grantRoles_certs]
    dsimp only
    exact ⟨_, List.mem_append_right _ (List.mem_singleton_self _), rfl, rfl, rfl, rfl⟩
  · intro s hs hid
    unfold trainingComplete at hs
    dsimp only at hs
    rw [grantRoles_sessions] at hs
    dsimp only at hs
    rcases List.mem_map.mp hs with ⟨s0, _, rfl⟩
    by_cases hc : (s0.id == sid) = true
    · simp [hc]
    · rw [if_neg hc] at hid
      exact absurd (beq_iff_eq.mpr hid) hc
  · intro role hrole
    unfold trainingComplete
    dsimp only
    exact grantRoles_granted tm.grants_roles _ u role hrole

/-- After the advance, every session row with the id carries the next
step. -/
theorem advanceSession_mem (db : DB) (sid : Nat) (n : Int) :
    ∀ s ∈ (advanceSession db sid n).training_sessions, s.id = sid →
      s.current_step = n + 1 := by
  intro s hs hid
  unfold advanceSession at hs
  dsimp only at hs
  rcases List.mem_map.mp hs with ⟨s0, _, rfl⟩
  by_cases hc : (s0.id == sid) = true
  · simp [hc]
  · rw [if_neg hc] at hid
    exact absurd (beq_iff_eq.mpr hid) hc

/-- C9: `POST /@qms/training/session/validate-step` accepts a step only
when the submitted `step_number` equals the session's `current_step`
(answering 409 with the state untouched otherwise), and on successful
validation of a non-final step `current_step` becomes exactly `n + 1`. -/
theorem validateStep_strict_order :
    (∀ (db : DB) (req : ValidateStepReq) (n : Int) (ts : TrainingSessionRow)
       (tm : TrainingModuleRow),
      jsTruthyNat req.session_id = true →
      req.step_number = some n →
      db.training_sessions.find? (fun x => x.id == req.session_id.getD 0) = some ts →
      db.training_modules.find? (fun x => x.id == ts.module_id) = some tm →
      ts.user_id = req.user.getD "unknown" →
      ts.status = "in_progress" →
      n ≠ ts.current_step →
      postTrainingValidateStep db req =
        ⟨errorResponse 409 "Unexpected step number. Complete steps in order.", db⟩) ∧
    (∀ (db : DB) (req : ValidateStepReq) (n : Int) (ts : TrainingSessionRow)
       (tm : TrainingModuleRow) (stepDef : StepDef) (dl : Nat × String),
      jsTruthyNat req.session_id = true →
      req.step_number = some n →
      db.training_sessions.find? (fun x => x.id == req.session_id.getD 0) = some ts →
      db.training_modules.find? (fun x => x.id == ts.module_id) = some tm →
      ts.user_id = req.user.getD "unknown" →
      ts.status = "in_progress" →
      n = ts.current_step →
      tm.steps.find? (fun s => s.step == n) = some stepDef →
      trainingDocLookup db ts.training_doc_id = some dl →
      runValidator stepDef.validation db dl.1 dl.2 = some true →
      (n == (tm.steps.length : Int)) = false →
      (postTrainingValidateStep db req).1 =
        { status := 200, okFlag := some true, completed := some false,
          current_step := some (n + 1) } ∧
      (∀ s ∈ (postTrainingValidateStep db req).2.training_sessions,
        s.id = req.session_id.getD 0 → s.current_step = n + 1)) := by
  constructor
  · exact validateStep_eval_order_409
  · intro db req n ts tm stepDef dl h0 hn hts htm huser hprog horder hstep hlookup
      hval hnotlast
    rw [validateStep_eval_ok db req n ts tm stepDef dl h0 hn hts htm huser hprog
      horder hstep hlookup hval]
    rw [if_neg (by simp [hnotlast])]
    refine ⟨rfl, ?_⟩
    intro s hs hid
    have hsess : (advanceSession
        (stepCompletionInsert db (req.session_id.getD 0) n stepDef
          (req.user.getD "unknown"))
        (req.session_id.getD 0) n).training_sessions
        = ((stepCompletionInsert db (req.session_id.getD 0) n stepDef
            (req.user.getD "unknown")).training_sessions.map (fun s =>
              if s.id == req.session_id.getD 0 then { s with current_step := n + 1 }
              else s)) := rfl
    exact advanceSession_mem _ (req.session_id.getD 0) n s hs hid

/-- C7: when the final step of an in-progress session validates, the
handler issues a certificate row, marks the session completed carrying
that certificate id, and grants every module role through the active
upsert. -/
theorem validateStep_final_completion (db : DB) (req : ValidateStepReq) (n : Int)
    (ts : TrainingSessionRow) (tm : TrainingModuleRow) (stepDef : StepDef)
    (dl : Nat × String)
    (h0 : jsTruthyNat req.session_id = true)
    (hn : req.step_number = some n)
    (hts : db.training_sessions.find? (fun x => x.id == req.session_id.getD 0) = some ts)
    (htm : db.training_modules.find? (fun x => x.id == ts.module_id) = some tm)
    (huser : ts.user_id = req.user.getD "unknown")
    (hprog : ts.status = "in_progress")
    (horder : n = ts.current_step)
    (hstep : tm.steps.find? (fun s => s.step == n) = some stepDef)
    (hlookup : trainingDocLookup db ts.training_doc_id = some dl)
    (hval : runValidator stepDef.validation db dl.1 dl.2 = some true)
    (hlast : (n == (tm.steps.length : Int)) = true) :
    (postTrainingValidateStep db req).1.completed = some true ∧
    ∃ certId : String,
      (postTrainingValidateStep db req).1.certificate_id = some certId ∧
      (∃ c ∈ (postTrainingValidateStep db req).2.training_certificates,
        c.certificate_id = certId ∧ c.session_id = req.session_id.getD 0 ∧
        c.user_id = req.user.getD "unknown" ∧ c.qualified_for = tm.grants_roles) ∧
      (∀ s ∈ (postTrainingValidateStep db req).2.training_sessions,
        s.id = req.session_id.getD 0 →
        s.status = "completed" ∧ s.certificate_id = some certId) ∧
      (∀ role ∈ tm.grants_roles,
        ∃ ur ∈ (postTrainingValidateStep db req).2.user_roles,
          ur.user_id = req.user.getD "unknown" ∧ ur.role_code = role ∧
          ur.active = true) := by
  rw [validateStep_eval_ok db req n ts tm stepDef dl h0 hn hts htm huser hprog
    horder hstep hlookup hval]
  rw [if_pos hlast]
  have spec := trainingComplete_spec
    (stepCompletionInsert db (req.session_id.getD 0) n stepDef (req.user.getD "unknown"))
    (req.session_id.getD 0) n tm (req.user.getD "unknown")
  exact ⟨spec.1, _, spec.2.1, spec.2.2.1, spec.2.2.2.1, spec.2.2.2.2⟩

/-! Training witnesses -/

def modT : TrainingModuleRow :=
  { id := 1, module_code := "DOC-CONTROL", title := "Document control",
    steps := [{ step := 1, key := "create_draft", validation := "draft_exists" }],
    grants_roles := ["qms_author"], active := true }

def modT2 : TrainingModuleRow :=
  { modT with
    id := 2,
    steps := [{ step := 1, key := "create_draft", validation := "draft_exists" },
              { step := 2, key := "justify", validation := "evidence_justification" }] }

def sessT : TrainingSessionRow :=
  { id := 5, user_id := "alice", module_id := 1, training_doc_id := some "TST-1",
    current_step := 1, status := "in_progress", completed_at := none,
    certificate_id := none }

def sessT2 : TrainingSessionRow := { sessT with id := 6, module_id := 2 }

def draftT : DraftRow :=
  { draftA with body_md := some "This is a sufficiently long training draft body." }

def cdT : ControlledDocRow := { cdA with document_id := "TST-1" }

def dbTrain : DB :=
  { emptyDB with
    docs := [docA], doc_drafts := [draftT],
    controlled_documents := [cdT], training_modules := [modT, modT2],
    training_sessions := [sessT, sessT2] }

def reqFinal : ValidateStepReq :=
  { session_id := some 5, step_number := some 1, user := some "alice" }

/-- Witness for C9: submitting step 2 against `current_step = 1` is a 409
that leaves the state untouched; validating the matching step 1 of the
two-step module advances to step 2. -/
theorem validateStep_strict_order_witness :
    (postTrainingValidateStep dbTrain
       { session_id := some 5, step_number := some 2, user := some "alice" } =
      ⟨errorResponse 409 "Unexpected step number. Complete steps in order.", dbTrain⟩) ∧
    ((postTrainingValidateStep dbTrain
       { session_id := some 6, step_number := some 1, user := some "alice" }).1 =
      { status := 200, okFlag := some true, completed := some false,
        current_step := some (1 + 1) }) := by
  constructor
  · exact validateStep_strict_order.1 dbTrain
      { session_id := some 5, step_number := some 2, user := some "alice" }
      2 sessT modT (by decide) (by decide) (by decide) (by decide) (by decide)
      (by decide) (by decide)
  · exact (validateStep_strict_order.2 dbTrain
      { session_id := some 6, step_number := some 1, user := some "alice" }
      1 sessT2 modT2 { step := 1, key := "create_draft", validation := "draft_exists" }
      (1, "TST-1") (by decide) (by decide) (by decide) (by decide) (by decide)
      (by decide) (by decide) (by decide) (by decide) (by decide) (by decide)).1

/-- Witness for C7 at the one-step module: the final step completes the
session, issues the certificate and grants `qms_author`. -/
theorem validateStep_final_completion_witness :
    (postTrainingValidateStep dbTrain reqFinal).1.completed = some true ∧
    ∃ certId : String,
      (postTrainingValidateStep dbTrain reqFinal).1.certificate_id = some certId ∧
      (∃ c ∈ (postTrainingValidateStep dbTrain reqFinal).2.training_certificates,
        c.certificate_id = certId ∧ c.session_id = reqFinal.session_id.getD 0 ∧
        c.user_id = reqFinal.user.getD "unknown" ∧
        c.qualified_for = modT.grants_roles) ∧
      (∀ s ∈ (postTrainingValidateStep dbTrain reqFinal).2.training_sessions,
        s.id = reqFinal.session_id.getD 0 →
        s.status = "completed" ∧ s.certificate_id = some certId) ∧
      (∀ role ∈ modT.grants_roles,
        ∃ ur ∈ (postTrainingValidateStep dbTrain reqFinal).2.user_roles,
          ur.user_id = reqFinal.user.getD "unknown" ∧ ur.role_code = role ∧
          ur.active = true) :=
  validateStep_final_completion dbTrain reqFinal 1 sessT modT
    { step := 1, key := "create_draft", validation := "draft_exists" } (1, "TST-1")
    (by decide) (by decide) (by decide) (by decide) (by decide) (by decide)
    (by decide) (by decide) (by decide) (by decide) (by decide)

/-! ## C8: the error status codes of the route handlers -/

def allowedErrorStatuses : List Nat := [400, 403, 404, 409, 422, 500]

theorem errStatuses_putDocDraft (db : DB) (req : PutDraftReq) (resp : Response)
    (db2 : DB) (heq : putDocDraft db req = (resp, db2)) (h : 400 ≤ resp.status) :
    resp.status ∈ allowedErrorStatuses ∧ resp.error.isSome = true := by
  unfold putDocDraft at heq
  repeat' split at heq
  all_goals cases heq
  all_goals simp_all [errorResponse, allowedErrorStatuses]
  all_goals split at h <;> omega

theorem errStatuses_deleteDocDraft (db : DB) (req : DeleteDraftReq) (resp : Response)
    (db2 : DB) (heq : deleteDocDraft db req = (resp, db2)) (h : 400 ≤ resp.status) :
    resp.status ∈ allowedErrorStatuses ∧ resp.error.isSome = true := by
  unfold deleteDocDraft at heq
  try dsimp only at heq
  repeat' split at heq
  all_goals cases heq
  all_goals simp_all [errorResponse, allowedErrorStatuses]

theorem errStatuses_submit (db : DB) (req : SubmitReq) (resp : Response)
    (db2 : DB) (heq : postDocDraftSubmit db req = (resp, db2)) (h : 400 ≤ resp.status) :
    resp.status ∈ allowedErrorStatuses ∧ resp.error.isSome = true := by
  unfold postDocDraftSubmit at heq
  try dsimp only at heq
  repeat' split at heq
  all_goals cases heq
  all_goals simp_all [errorResponse, allowedErrorStatuses]

theorem errStatuses_reject (db : DB) (req : RejectReq) (resp : Response)
    (db2 : DB) (heq : postDocDraftReject db req = (resp, db2)) (h : 400 ≤ resp.status) :
    resp.status ∈ allowedErrorStatuses ∧ resp.error.isSome = true := by
  unfold postDocDraftReject at heq
  try dsimp only at heq
  repeat' split at heq
  all_goals cases heq
  all_goals simp_all [errorResponse, allowedErrorStatuses]

theorem errStatuses_approve (db : DB) (req : ApproveReq) (resp : Response)
    (db2 : DB) (heq : postDocDraftApprove db req = (resp, db2)) (h : 400 ≤ resp.status) :
    resp.status ∈ allowedErrorStatuses ∧ resp.error.isSome = true := by
  unfold postDocDraftApprove approveFinish at heq
  try dsimp only at heq
  repeat' split at heq
  all_goals cases heq
  all_goals simp_all [errorResponse, allowedErrorStatuses]

theorem errStatuses_validateStep (db : DB) (req : ValidateStepReq) (resp : Response)
    (db2 : DB) (heq : postTrainingValidateStep db req = (resp, db2)) (h : 400 ≤ resp.status) :
    resp.status ∈ allowedErrorStatuses ∧ resp.error.isSome = true := by
  unfold postTrainingValidateStep trainingComplete at heq
  try dsimp only at heq
  repeat' split at heq
  all_goals cases heq
  all_goals simp_all [errorResponse, allowedErrorStatuses]

theorem errStatuses_abandon (db : DB) (req : AbandonReq) (resp : Response)
    (db2 : DB) (heq : postTrainingAbandon db req = (resp, db2)) (h : 400 ≤ resp.status) :
    resp.status ∈ allowedErrorStatuses ∧ resp.error.isSome = true := by
  unfold postTrainingAbandon at heq
  try dsimp only at heq
  repeat' split at heq
  all_goals cases heq
  all_goals simp_all [errorResponse, allowedErrorStatuses]

theorem errStatuses_putQms (db : DB) (req : PutQmsReq) (resp : Response)
    (db2 : DB) (heq : putQmsDocument db req = (resp, db2)) (h : 400 ≤ resp.status) :
    resp.status ∈ allowedErrorStatuses ∧ resp.error.isSome = true := by
  unfold putQmsDocument at heq
  try dsimp only at heq
  repeat' split at heq
  all_goals cases heq
  all_goals simp_all [errorResponse, allowedErrorStatuses]

theorem errStatuses_transition (db : DB) (req : TransitionReq) (resp : Response)
    (db2 : DB) (heq : postQmsTransition db req = (resp, db2)) (h : 400 ≤ resp.status) :
    resp.status ∈ allowedErrorStatuses ∧ resp.error.isSome = true := by
  unfold postQmsTransition at heq
  try dsimp only at heq
  repeat' split at heq
  all_goals cases heq
  all_goals simp_all [errorResponse, allowedErrorStatuses]

theorem errStatuses_docsSave (db : DB) (req : SaveReq) (resp : Response) (db2 : DB)
    (heq : postDocsSave db req = .ok (resp, db2)) (h : 400 ≤ resp.status) :
    resp.status ∈ allowedErrorStatuses ∧ resp.error.isSome = true := by
  unfold postDocsSave at heq
  try dsimp only at heq
  repeat' split at heq
  all_goals cases heq
  all_goals simp_all [errorResponse, allowedErrorStatuses]

theorem errStatuses_getDoc (db : DB) (req : DocViewReq) (resp : Response)
    (heq : getDoc db req = resp) (h : 400 ≤ resp.status) :
    resp.status ∈ allowedErrorStatuses ∧ resp.error.isSome = true := by
  unfold getDoc at heq
  try dsimp only at heq
  repeat' split at heq
  all_goals cases heq
  all_goals simp_all [errorResponse, allowedErrorStatuses]

theorem errStatuses_getDocLinks (db : DB) (req : DocLinksQuery) (resp : Response)
    (heq : getDocLinks db req = resp) (h : 400 ≤ resp.status) :
    resp.status ∈ allowedErrorStatuses ∧ resp.error.isSome = true := by
  unfold getDocLinks at heq
  try dsimp only at heq
  repeat' split at heq
  all_goals cases heq
  all_goals simp_all [errorResponse, allowedErrorStatuses]

theorem errStatuses_postDocLink (db : DB) (req : LinkPostReq) (resp : Response)
    (db2 : DB) (heq : postDocLink db req = (resp, db2)) (h : 400 ≤ resp.status) :
    resp.status ∈ allowedErrorStatuses ∧ resp.error.isSome = true := by
  unfold postDocLink at heq
  try dsimp only at heq
  repeat' split at heq
  all_goals cases heq
  all_goals simp_all [errorResponse, allowedErrorStatuses]

theorem errStatuses_deleteDocLink (db : DB) (req : LinkDeleteReq) (resp : Response)
    (db2 : DB) (heq : deleteDocLink db req = (resp, db2)) (h : 400 ≤ resp.status) :
    resp.status ∈ allowedErrorStatuses ∧ resp.error.isSome = true := by
  unfold deleteDocLink at heq
  try dsimp only at heq
  repeat' split at heq
  all_goals cases heq
  all_goals simp_all [errorResponse, allowedErrorStatuses]

theorem errStatuses_getDocDraft (db : DB) (req : DocViewReq) (resp : Response)
    (heq : getDocDraft db req = resp) (h : 400 ≤ resp.status) :
    resp.status ∈ allowedErrorStatuses ∧ resp.error.isSome = true := by
  unfold getDocDraft at heq
  try dsimp only at heq
  repeat' split at heq
  all_goals cases heq
  all_goals simp_all [errorResponse, allowedErrorStatuses]

theorem errStatuses_getQmsEvidence (db : DB) (req : EvidenceQuery) (resp : Response)
    (heq : getQmsEvidence db req = resp) (h : 400 ≤ resp.status) :
    resp.status ∈ allowedErrorStatuses ∧ resp.error.isSome = true := by
  unfold getQmsEvidence at heq
  try dsimp only at heq
  repeat' split at heq
  all_goals cases heq
  all_goals simp_all [errorResponse, allowedErrorStatuses]

theorem errStatuses_getQmsEvidenceSummary (db : DB) (req : EvidenceQuery)
    (resp : Response) (heq : getQmsEvidenceSummary db req = resp)
    (h : 400 ≤ resp.status) :
    resp.status ∈ allowedErrorStatuses ∧ resp.error.isSome = true := by
  unfold getQmsEvidenceSummary at heq
  try dsimp only at heq
  repeat' split at heq
  all_goals cases heq
  all_goals simp_all [errorResponse, allowedErrorStatuses]

theorem errStatuses_postQmsEvidence (db : DB) (req : EvidencePostReq)
    (resp : Response) (db2 : DB) (heq : postQmsEvidence db req = (resp, db2))
    (h : 400 ≤ resp.status) :
    resp.status ∈ allowedErrorStatuses ∧ resp.error.isSome = true := by
  unfold postQmsEvidence at heq
  try dsimp only at heq
  repeat' split at heq
  all_goals cases heq
  all_goals simp_all [errorResponse, allowedErrorStatuses]

theorem errStatuses_trainingStart (db : DB) (req : StartTrainingReq)
    (resp : Response) (db2 : DB) (heq : postTrainingStart db req = (resp, db2))
    (h : 400 ≤ resp.status) :
    resp.status ∈ allowedErrorStatuses ∧ resp.error.isSome = true := by
  unfold postTrainingStart at heq
  try dsimp only at heq
  repeat' split at heq
  all_goals cases heq
  all_goals simp_all [errorResponse, allowedErrorStatuses]

theorem errStatuses_getTrainingCertificate (db : DB) (req : CertificateQuery)
    (resp : Response) (heq : getTrainingCertificate db req = resp)
    (h : 400 ≤ resp.status) :
    resp.status ∈ allowedErrorStatuses ∧ resp.error.isSome = true := by
  unfold getTrainingCertificate at heq
  try dsimp only at heq
  repeat' split at heq
  all_goals cases heq
  all_goals simp_all [errorResponse, allowedErrorStatuses]

theorem errStatuses_getQmsDocument (db : DB) (req : QmsDocParam) (resp : Response)
    (heq : getQmsDocument db req = resp) (h : 400 ≤ resp.status) :
    resp.status ∈ allowedErrorStatuses ∧ resp.error.isSome = true := by
  unfold getQmsDocument at heq
  try dsimp only at heq
  repeat' split at heq
  all_goals cases heq
  all_goals simp_all [errorResponse, allowedErrorStatuses]

theorem errStatuses_postQmsDocument (db : DB) (req : PostQmsReq) (resp : Response)
    (db2 : DB) (heq : postQmsDocument db req = (resp, db2)) (h : 400 ≤ resp.status) :
    resp.status ∈ allowedErrorStatuses ∧ resp.error.isSome = true := by
  unfold postQmsDocument at heq
  try dsimp only at heq
  repeat' split at heq
  all_goals cases heq
  all_goals simp_all [errorResponse, allowedErrorStatuses]

theorem errStatuses_fromKb (db : DB) (req : FromKbReq) (resp : Response)
    (db2 : DB) (heq : postQmsFromKb db req = (resp, db2)) (h : 400 ≤ resp.status) :
    resp.status ∈ allowedErrorStatuses ∧ resp.error.isSome = true := by
  unfold postQmsFromKb at heq
  try dsimp only at heq
  repeat' split at heq
  all_goals cases heq
  all_goals simp_all [errorResponse, allowedErrorStatuses]

theorem errStatuses_fromKbBatch (db : DB) (req : KbBatchReq) (resp : Response)
    (db2 : DB) (heq : postQmsFromKbBatch db req = (resp, db2))
    (h : 400 ≤ resp.status) :
    resp.status ∈ allowedErrorStatuses ∧ resp.error.isSome = true := by
  unfold postQmsFromKbBatch at heq
  try dsimp only at heq
  repeat' split at heq
  all_goals cases heq
  all_goals simp_all [errorResponse, allowedErrorStatuses]

theorem errStatuses_getQmsIssue (db : DB) (req : IssueParam) (resp : Response)
    (heq : getQmsIssue db req = resp) (h : 400 ≤ resp.status) :
    resp.status ∈ allowedErrorStatuses ∧ resp.error.isSome = true := by
  unfold getQmsIssue at heq
  try dsimp only at heq
  repeat' split at heq
  all_goals cases heq
  all_goals simp_all [errorResponse, allowedErrorStatuses]

/-- Counterexample to C8 as stated: validating a step of a session owned
by another user produces a 403 error response — a status outside the
claimed set {400, 404, 409, 422, 500}. -/
theorem error_status_403_counterexample :
    (postTrainingValidateStep dbTrain
      { session_id := some 5, step_number := some 1, user := some "mallory" }).1.status
      = 403 ∧
    (postTrainingValidateStep dbTrain
      { session_id := some 5, step_number := some 1,
        user := some "mallory" }).1.error.isSome = true ∧
    403 ∉ [400, 404, 409, 422, 500] := by
  decide

/-- C8 amended: every error response (status >= 400) produced by any route
handler of this repository's route modules — the knowledge-base docs module
(listing, search, view, link vocabulary, links read/create/delete, save),
the draft module (read, upsert, delete, submit, approve, reject), the
training module (modules, session, start, validate-step, abandon,
certificate), the QMS register module (dashboard, register listing,
unregistered, document detail, reviews, external, create, from-kb,
from-kb batch, update, transition, issues listing, issue detail), the
evidence module (read, summary, create) and the nine polyglot/translation
endpoints — carries one of the statuses 400, 403, 404, 409, 422 or 500,
together with a JSON error message.  (The training endpoints add 403 to
the spec's list; the remaining read endpoints never produce an error
response at all.) -/
theorem error_statuses_amended :
    (∀ (db : DB) (req : PutDraftReq), 400 ≤ (putDocDraft db req).1.status →
      (putDocDraft db req).1.status ∈ allowedErrorStatuses ∧
      (putDocDraft db req).1.error.isSome = true) ∧
    (∀ (db : DB) (req : DeleteDraftReq), 400 ≤ (deleteDocDraft db req).1.status →
      (deleteDocDraft db req).1.status ∈ allowedErrorStatuses ∧
      (deleteDocDraft db req).1.error.isSome = true) ∧
    (∀ (db : DB) (req : SubmitReq), 400 ≤ (postDocDraftSubmit db req).1.status →
      (postDocDraftSubmit db req).1.status ∈ allowedErrorStatuses ∧
      (postDocDraftSubmit db req).1.error.isSome = true) ∧
    (∀ (db : DB) (req : RejectReq), 400 ≤ (postDocDraftReject db req).1.status →
      (postDocDraftReject db req).1.status ∈ allowedErrorStatuses ∧
      (postDocDraftReject db req).1.error.isSome = true) ∧
    (∀ (db : DB) (req : ApproveReq), 400 ≤ (postDocDraftApprove db req).1.status →
      (postDocDraftApprove db req).1.status ∈ allowedErrorStatuses ∧
      (postDocDraftApprove db req).1.error.isSome = true) ∧
    (∀ (db : DB) (req : ValidateStepReq),
      400 ≤ (postTrainingValidateStep db req).1.status →
      (postTrainingValidateStep db req).1.status ∈ allowedErrorStatuses ∧
      (postTrainingValidateStep db req).1.error.isSome = true) ∧
    (∀ (db : DB) (req : AbandonReq), 400 ≤ (postTrainingAbandon db req).1.status →
      (postTrainingAbandon db req).1.status ∈ allowedErrorStatuses ∧
      (postTrainingAbandon db req).1.error.isSome = true) ∧
    (∀ (db : DB) (req : PutQmsReq), 400 ≤ (putQmsDocument db req).1.status →
      (putQmsDocument db req).1.status ∈ allowedErrorStatuses ∧
      (putQmsDocument db req).1.error.isSome = true) ∧
    (∀ (db : DB) (req : TransitionReq), 400 ≤ (postQmsTransition db req).1.status →
      (postQmsTransition db req).1.status ∈ allowedErrorStatuses ∧
      (postQmsTransition db req).1.error.isSome = true) ∧
    (∀ (db : DB) (req : SaveReq) (resp : Response) (db2 : DB),
      postDocsSave db req = .ok (resp, db2) → 400 ≤ resp.status →
      resp.status ∈ allowedErrorStatuses ∧ resp.error.isSome = true) ∧
    (∀ (db : DB) (req : DocViewReq), 400 ≤ (getDoc db req).status →
      (getDoc db req).status ∈ allowedErrorStatuses ∧
      (getDoc db req).error.isSome = true) ∧
    (∀ (db : DB) (req : DocLinksQuery), 400 ≤ (getDocLinks db req).status →
      (getDocLinks db req).status ∈ allowedErrorStatuses ∧
      (getDocLinks db req).error.isSome = true) ∧
    (∀ (db : DB) (req : LinkPostReq), 400 ≤ (postDocLink db req).1.status →
      (postDocLink db req).1.status ∈ allowedErrorStatuses ∧
      (postDocLink db req).1.error.isSome = true) ∧
    (∀ (db : DB) (req : LinkDeleteReq), 400 ≤ (deleteDocLink db req).1.status →
      (deleteDocLink db req).1.status ∈ allowedErrorStatuses ∧
      (deleteDocLink db req).1.error.isSome = true) ∧
    (∀ (db : DB) (req : DocViewReq), 400 ≤ (getDocDraft db req).status →
      (getDocDraft db req).status ∈ allowedErrorStatuses ∧
      (getDocDraft db req).error.isSome = true) ∧
    (∀ (db : DB) (req : EvidenceQuery), 400 ≤ (getQmsEvidence db req).status →
      (getQmsEvidence db req).status ∈ allowedErrorStatuses ∧
      (getQmsEvidence db req).error.isSome = true) ∧
    (∀ (db : DB) (req : EvidenceQuery),
      400 ≤ (getQmsEvidenceSummary db req).status →
      (getQmsEvidenceSummary db req).status ∈ allowedErrorStatuses ∧
      (getQmsEvidenceSummary db req).error.isSome = true) ∧
    (∀ (db : DB) (req : EvidencePostReq), 400 ≤ (postQmsEvidence db req).1.status →
      (postQmsEvidence db req).1.status ∈ allowedErrorStatuses ∧
      (postQmsEvidence db req).1.error.isSome = true) ∧
    (∀ (db : DB) (req : StartTrainingReq),
      400 ≤ (postTrainingStart db req).1.status →
      (postTrainingStart db req).1.status ∈ allowedErrorStatuses ∧
      (postTrainingStart db req).1.error.isSome = true) ∧
    (∀ (db : DB) (req : CertificateQuery),
      400 ≤ (getTrainingCertificate db req).status →
      (getTrainingCertificate db req).status ∈ allowedErrorStatuses ∧
      (getTrainingCertificate db req).error.isSome = true) ∧
    (∀ (db : DB) (req : QmsDocParam), 400 ≤ (getQmsDocument db req).status →
      (getQmsDocument db req).status ∈ allowedErrorStatuses ∧
      (getQmsDocument db req).error.isSome = true) ∧
    (∀ (db : DB) (req : PostQmsReq), 400 ≤ (postQmsDocument db req).1.status →
      (postQmsDocument db req).1.status ∈ allowedErrorStatuses ∧
      (postQmsDocument db req).1.error.isSome = true) ∧
    (∀ (db : DB) (req : FromKbReq), 400 ≤ (postQmsFromKb db req).1.status →
      (postQmsFromKb db req).1.status ∈ allowedErrorStatuses ∧
      (postQmsFromKb db req).1.error.isSome = true) ∧
    (∀ (db : DB) (req : KbBatchReq), 400 ≤ (postQmsFromKbBatch db req).1.status →
      (postQmsFromKbBatch db req).1.status ∈ allowedErrorStatuses ∧
      (postQmsFromKbBatch db req).1.error.isSome = true) ∧
    (∀ (db : DB) (req : IssueParam), 400 ≤ (getQmsIssue db req).status →
      (getQmsIssue db req).status ∈ allowedErrorStatuses ∧
      (getQmsIssue db req).error.isSome = true) ∧
    (∀ db : DB, ¬ 400 ≤ (getDocs db).status) ∧
    (∀ db : DB, ¬ 400 ≤ (getDocsSearch db).status) ∧
    (∀ db : DB, ¬ 400 ≤ (getDocLinkTypes db).status) ∧
    (∀ db : DB, ¬ 400 ≤ (getTrainingModules db).status) ∧
    (∀ db : DB, ¬ 400 ≤ (getTrainingSession db).status) ∧
    (∀ db : DB, ¬ 400 ≤ (getQmsDashboard db).status) ∧
    (∀ db : DB, ¬ 400 ≤ (getQmsRegister db).status) ∧
    (∀ db : DB, ¬ 400 ≤ (getQmsUnregistered db).status) ∧
    (∀ db : DB, ¬ 400 ≤ (getQmsReviews db).status) ∧
    (∀ db : DB, ¬ 400 ≤ (getQmsExternal db).status) ∧
    (∀ db : DB, ¬ 400 ≤ (getQmsIssues db).status) ∧
    (∀ db : DB, ¬ 400 ≤ (getPolyglotCoverage db).status) ∧
    (∀ db : DB, ¬ 400 ≤ (getPolyglotLanguage db).status) ∧
    (∀ db : DB, ¬ 400 ≤ (getPolyglotTranslations db).status) ∧
    (∀ db : DB, ¬ 400 ≤ (getPolyglotMessage db).status) ∧
    (∀ db : DB, ¬ 400 ≤ (getPolyglotGlossary db).status) ∧
    (∀ db : DB, ¬ 400 ≤ (getTranslations db).status) ∧
    (∀ db : DB, ¬ 400 ≤ (unlinkTranslation db).status) ∧
    (∀ db : DB, ¬ 400 ≤ (linkTranslation db).status) ∧
    (∀ db : DB, ¬ 400 ≤ (getTranslationLocation db).status) := by
  refine ⟨?_, ?_, ?_, ?_, ?_, ?_, ?_, ?_, ?_, ?_, ?_, ?_, ?_, ?_, ?_, ?_, ?_,
    ?_, ?_, ?_, ?_, ?_, ?_, ?_, ?_, ?_, ?_, ?_, ?_, ?_, ?_, ?_, ?_, ?_, ?_,
    ?_, ?_, ?_, ?_, ?_, ?_, ?_, ?_, ?_, ?_⟩
  · exact fun db req h => errStatuses_putDocDraft db req _ _ rfl h
  · exact fun db req h => errStatuses_deleteDocDraft db req _ _ rfl h
  · exact fun db req h => errStatuses_submit db req _ _ rfl h
  · exact fun db req h => errStatuses_reject db req _ _ rfl h
  · exact fun db req h => errStatuses_approve db req _ _ rfl h
  · exact fun db req h => errStatuses_validateStep db req _ _ rfl h
  · exact fun db req h => errStatuses_abandon db req _ _ rfl h
  · exact fun db req h => errStatuses_putQms db req _ _ rfl h
  · exact fun db req h => errStatuses_transition db req _ _ rfl h
  · exact fun db req resp db2 heq h => errStatuses_docsSave db req resp db2 heq h
  · exact fun db req h => errStatuses_getDoc db req _ rfl h
  · exact fun db req h => errStatuses_getDocLinks db req _ rfl h
  · exact fun db req h => errStatuses_postDocLink db req _ _ rfl h
  · exact fun db req h => errStatuses_deleteDocLink db req _ _ rfl h
  · exact fun db req h => errStatuses_getDocDraft db req _ rfl h
  · exact fun db req h => errStatuses_getQmsEvidence db req _ rfl h
  · exact fun db req h => errStatuses_getQmsEvidenceSummary db req _ rfl h
  · exact fun db req h => errStatuses_postQmsEvidence db req _ _ rfl h
  · exact fun db req h => errStatuses_trainingStart db req _ _ rfl h
  · exact fun db req h => errStatuses_getTrainingCertificate db req _ rfl h
  · exact fun db req h => errStatuses_getQmsDocument db req _ rfl h
  · exact fun db req h => errStatuses_postQmsDocument db req _ _ rfl h
  · exact fun db req h => errStatuses_fromKb db req _ _ rfl h
  · exact fun db req h => errStatuses_fromKbBatch db req _ _ rfl h
  · exact fun db req h => errStatuses_getQmsIssue db req _ rfl h
  · intro db h
    simp [getDocs] at h
  · intro db h
    simp [getDocsSearch] at h
  · intro db h
    simp [getDocLinkTypes] at h
  · intro db h
    simp [getTrainingModules] at h
  · intro db h
    simp [getTrainingSession] at h
  · intro db h
    simp [getQmsDashboard] at h
  · intro db h
    simp [getQmsRegister] at h
  · intro db h
    simp [getQmsUnregistered] at h
  · intro db h
    simp [getQmsReviews] at h
  · intro db h
    simp [getQmsExternal] at h
  · intro db h
    simp [getQmsIssues] at h
  · intro db h
    simp [getPolyglotCoverage] at h
  · intro db h
    simp [getPolyglotLanguage] at h
  · intro db h
    simp [getPolyglotTranslations] at h
  · intro db h
    simp [getPolyglotMessage] at h
  · intro db h
    simp [getPolyglotGlossary] at h
  · intro db h
    simp [getTranslations] at h
  · intro db h
    simp [unlinkTranslation] at h
  · intro db h
    simp [linkTranslation] at h
  · intro db h
    simp [getTranslationLocation] at h

/-- Witness for the amended C8 at concrete error responses (a 400 of the
draft upsert, the training 403, and a 404 of the register detail). -/
theorem error_statuses_amended_witness :
    ((putDocDraft emptyDB
        { slug := none, version := none, title := none, body_md := none,
          frontmatter := none, justification := none, user := none }).1.status
      ∈ allowedErrorStatuses) ∧
    ((postTrainingValidateStep dbTrain
        { session_id := some 5, step_number := some 1,
          user := some "mallory" }).1.status ∈ allowedErrorStatuses) ∧
    ((getQmsDocument emptyDB { document_id := "SOP-9" }).status
      ∈ allowedErrorStatuses) := by
  refine ⟨?_, ?_, ?_⟩
  · exact (error_statuses_amended.1 emptyDB
      { slug := none, version := none, title := none, body_md := none,
        frontmatter := none, justification := none, user := none } (by decide)).1
  · exact (error_statuses_amended.2.2.2.2.2.1 dbTrain
      { session_id := some 5, step_number := some 1, user := some "mallory" }
      (by decide)).1
  · exact (error_statuses_amended.2.2.2.2.2.2.2.2.2.2.2.2.2.2.2.2.2.2.2.2.1
      emptyDB { document_id := "SOP-9" } (by decide)).1

/-! ## C4: at most one draft row per document -/

theorem wfList_mono {l : List DraftRow} {N M : Nat} (h : wfList l N) (hNM : N ≤ M) :
    wfList l M :=
  ⟨h.1, h.2.1, fun r hr => lt_of_lt_of_le (h.2.2 r hr) hNM⟩

/-- Two rows of an id-distinct list with the same id are the same row. -/
theorem eq_of_id_pairwise {l : List DraftRow}
    (hpw : l.Pairwise (fun a b => a.id ≠ b.id)) {r s : DraftRow}
    (hr : r ∈ l) (hs : s ∈ l) (hid : r.id = s.id) : r = s := by
  by_contra hne
  exact (List.Pairwise.forall (fun a b hab => (Ne.symm hab)) hpw hr hs hne) hid

/-- An update pass that keeps `doc_id` and `id` of every member preserves
well-formedness (with any larger counter). -/
theorem wfList_map {l : List DraftRow} {N M : Nat} {f : DraftRow → DraftRow}
    (hdoc : ∀ r ∈ l, (f r).doc_id = r.doc_id)
    (hid : ∀ r ∈ l, (f r).id = r.id) (hNM : N ≤ M) (h : wfList l N) :
    wfList (l.map f) M := by
  refine ⟨?_, ?_, ?_⟩
  · rw [List.pairwise_map]
    exact h.1.imp_of_mem (fun ha hb hab => by rw [hdoc _ ha, hdoc _ hb]; exact hab)
  · rw [List.pairwise_map]
    exact h.2.1.imp_of_mem (fun ha hb hab => by rw [hid _ ha, hid _ hb]; exact hab)
  · intro r hr
    rcases List.mem_map.mp hr with ⟨r0, hr0, rfl⟩
    rw [hid _ hr0]
    exact lt_of_lt_of_le (h.2.2 r0 hr0) hNM

/-- Deleting rows preserves well-formedness. -/
theorem wfList_filter {l : List DraftRow} {N M : Nat} (p : DraftRow → Bool)
    (hNM : N ≤ M) (h : wfList l N) : wfList (l.filter p) M := by
  refine ⟨h.1.sublist (List.filter_sublist l), h.2.1.sublist (List.filter_sublist l), ?_⟩
  intro r hr
  exact lt_of_lt_of_le (h.2.2 r (List.mem_of_mem_filter hr)) hNM

/-- Appending a row with a fresh `doc_id` and the counter as id preserves
well-formedness at the bumped counter. -/
theorem wfList_append_fresh {l : List DraftRow} {N M : Nat} {x : DraftRow}
    (hdoc : ∀ r ∈ l, r.doc_id ≠ x.doc_id) (hxid : x.id = N) (hNM : N + 1 ≤ M)
    (h : wfList l N) : wfList (l ++ [x]) M := by
  refine ⟨?_, ?_, ?_⟩
  · rw [List.pairwise_append]
    exact ⟨h.1, List.pairwise_singleton _ _, fun a ha b hb => by
      rw [List.mem_singleton.mp hb]; exact hdoc a ha⟩
  · rw [List.pairwise_append]
    refine ⟨h.2.1, List.pairwise_singleton _ _, fun a ha b hb => ?_⟩
    rw [List.mem_singleton.mp hb, hxid]
    exact Nat.ne_of_lt (h.2.2 a ha)
  · intro r hr
    rcases List.mem_append.mp hr with hm | hm
    · exact lt_of_lt_of_le (h.2.2 r hm) (le_trans (Nat.le_succ N) hNM)
    · rw [List.mem_singleton.mp hm, hxid]; omega

theorem putDocDraft_eval_noslug (db : DB) (req : PutDraftReq)
    (h1 : jsTruthyStr req.slug = false) :
    putDocDraft db req = ⟨errorResponse 400 "Document slug required", db⟩ := by
  unfold putDocDraft
  rw [h1]
  rfl

theorem putDocDraft_eval_nodoc (db : DB) (req : PutDraftReq)
    (h1 : jsTruthyStr req.slug = true)
    (h2 : db.docs.find? (fun d => d.slug == req.slug.getD "") = none) :
    putDocDraft db req = ⟨errorResponse 404 "Document not found", db⟩ := by
  unfold putDocDraft
  rw [h1]
  simp only [Bool.not_true, Bool.false_eq_true, if_false, h2]

theorem putDocDraft_eval_noversion (db : DB) (req : PutDraftReq) (doc : DocRow)
    (h1 : jsTruthyStr req.slug = true)
    (h2 : db.docs.find? (fun d => d.slug == req.slug.getD "") = some doc)
    (h3 : jsTruthyStr req.version = false) :
    putDocDraft db req = ⟨errorResponse 400 "Version is required for a draft", db⟩ := by
  unfold putDocDraft
  rw [h1]
  simp only [Bool.not_true, Bool.false_eq_true, if_false, h2, h3]
  rfl

theorem putDocDraft_eval_update (db : DB) (req : PutDraftReq) (doc : DocRow)
    (old : DraftRow)
    (h1 : jsTruthyStr req.slug = true)
    (h2 : db.docs.find? (fun d => d.slug == req.slug.getD "") = some doc)
    (h3 : jsTruthyStr req.version = true)
    (h4 : db.doc_drafts.find? (fun r => r.doc_id == doc.id) = some old) :
    ∃ upd : DraftRow, upd.id = old.id ∧ upd.doc_id = old.doc_id ∧
      (putDocDraft db req).2.doc_drafts
        = db.doc_drafts.map (fun r => if r.id == old.id then upd else r) ∧
      db.next_id ≤ (putDocDraft db req).2.next_id := by
  unfold putDocDraft
  rw [h1]
  simp only [Bool.not_true, Bool.false_eq_true, if_false, h2, h3, h4]
  refine ⟨{ old with
      version := req.version.getD "",
      title := match req.title with | some t => some t | none => doc.title,
      body_md := match req.body_md with | some b => some b | none => doc.body_md,
      frontmatter := match req.frontmatter with | some f => some f | none => doc.frontmatter,
      updated_by := req.user.getD "unknown",
      status := if old.status == "rejected" then "draft" else old.status,
      reviewer_notes := if old.status == "rejected" then none else old.reviewer_notes,
      updated_at := db.now }, rfl, rfl, ?_, ?_⟩
  · repeat' split
    all_goals rfl
  · repeat' split
    all_goals simp [insertEvidence]

theorem putDocDraft_eval_insert (db : DB) (req : PutDraftReq) (doc : DocRow)
    (h1 : jsTruthyStr req.slug = true)
    (h2 : db.docs.find? (fun d => d.slug == req.slug.getD "") = some doc)
    (h3 : jsTruthyStr req.version = true)
    (h4 : db.doc_drafts.find? (fun r => r.doc_id == doc.id) = none) :
    ∃ fresh : DraftRow, fresh.id = db.next_id ∧ fresh.doc_id = doc.id ∧
      (putDocDraft db req).2.doc_drafts = db.doc_drafts ++ [fresh] ∧
      db.next_id + 1 ≤ (putDocDraft db req).2.next_id := by
  unfold putDocDraft
  rw [h1]
  simp only [Bool.not_true, Bool.false_eq_true, if_false, h2, h3, h4]
  refine ⟨{
      id := db.next_id, doc_id := doc.id, version := req.version.getD "",
      title := match req.title with | some t => some t | none => doc.title,
      body_md := match req.body_md with | some b => some b | none => doc.body_md,
      frontmatter := match req.frontmatter with | some f => some f | none => doc.frontmatter,
      status := "draft", created_by := req.user.getD "unknown",
      updated_by := req.user.getD "unknown",
      created_at := db.now, updated_at := db.now,
      reviewer_notes := none }, rfl, rfl, ?_, ?_⟩
  · repeat' split
    all_goals rfl
  · repeat' split
    all_goals simp [insertEvidence]

theorem insertEvidence_next_id (db : DB) (a : String) (b : Option Nat) (c d : String)
    (e : Option String) (f : String) :
    (insertEvidence db a b c d e f).next_id = db.next_id + 1 := rfl

theorem recordApproveTransition_next_id (db : DB) (q cv nv u : String) (c : Option String) :
    (recordApproveTransition db q cv nv u c).2.next_id = db.next_id + 1 := rfl

theorem approveEvidence_next_id_ge (db : DB) (q : String) (t : Nat) (req : ApproveReq)
    (u : String) : db.next_id ≤ (approveEvidence db q t req u).next_id := by
  unfold approveEvidence
  dsimp only
  split <;> split <;> split <;> simp [insertEvidence] <;> omega

theorem setQmsEffective_next_id (db : DB) (i : Nat) (nv : String) :
    (setQmsEffective db i nv).next_id = db.next_id := rfl

theorem approveFinish_next_id (db : DB) (d : DocRow) (dr : DraftRow) (u : String) :
    (approveFinish db d dr u).2.next_id = db.next_id := by
  unfold approveFinish
  dsimp only
  rw [insertVersionIfAbsent_next_id]

/-- `PUT /@docs/draft` preserves draft-table well-formedness: the upsert
either rewrites the single conflicting row in place or appends a row with
a fresh `doc_id` and the serial counter as primary key. -/
theorem putDocDraft_preserves_wf (db : DB) (req : PutDraftReq)
    (h : wellFormedDrafts db) : wellFormedDrafts (putDocDraft db req).2 := by
  unfold wellFormedDrafts at h ⊢
  cases h1 : jsTruthyStr req.slug with
  | false => rw [putDocDraft_eval_noslug db req h1]; exact h
  | true =>
    cases h2 : db.docs.find? (fun d => d.slug == req.slug.getD "") with
    | none => rw [putDocDraft_eval_nodoc db req h1 h2]; exact h
    | some doc =>
      cases h3 : jsTruthyStr req.version with
      | false => rw [putDocDraft_eval_noversion db req doc h1 h2 h3]; exact h
      | true =>
        cases h4 : db.doc_drafts.find? (fun r => r.doc_id == doc.id) with
        | some old =>
          rcases putDocDraft_eval_update db req doc old h1 h2 h3 h4 with
            ⟨upd, hidu, hdocu, hmap, hnext⟩
          rw [hmap]
          have hold : old ∈ db.doc_drafts := List.mem_of_find?_eq_some h4
          refine wfList_map ?_ ?_ hnext h
          · intro r hr
            dsimp only
            by_cases hc : (r.id == old.id) = true
            · have hro : r = old := eq_of_id_pairwise h.2.1 hr hold (beq_iff_eq.mp hc)
              rw [if_pos hc, hdocu, hro]
            · rw [if_neg hc]
          · intro r hr
            dsimp only
            by_cases hc : (r.id == old.id) = true
            · rw [if_pos hc, hidu]; exact (beq_iff_eq.mp hc).symm
            · rw [if_neg hc]
        | none =>
          rcases putDocDraft_eval_insert db req doc h1 h2 h3 h4 with
            ⟨fresh, hidf, hdocf, happ, hnext⟩
          rw [happ]
          refine wfList_append_fresh ?_ hidf hnext h
          intro r hr
          rw [hdocf]
          intro hcontra
          exact (List.find?_eq_none.mp h4 r hr) (beq_iff_eq.mpr hcontra)

/-- `POST /@docs/draft/submit` preserves well-formedness: it only rewrites
status fields in place (plus evidence inserts that leave the table alone). -/
theorem postDocDraftSubmit_preserves_wf (db : DB) (req : SubmitReq)
    (h : wellFormedDrafts db) : wellFormedDrafts (postDocDraftSubmit db req).2 := by
  unfold wellFormedDrafts at h ⊢
  unfold postDocDraftSubmit
  dsimp only
  repeat' split
  all_goals try dsimp only
  all_goals try simp only [insertEvidence_drafts, insertEvidence_next_id]
  all_goals first
    | exact h
    | (refine wfList_map ?_ ?_ (by omega) h <;>
        (intro r hr; (try dsimp only); split <;> rfl))

/-- `POST /@docs/draft/reject` preserves well-formedness for the same
reason as submit. -/
theorem postDocDraftReject_preserves_wf (db : DB) (req : RejectReq)
    (h : wellFormedDrafts db) : wellFormedDrafts (postDocDraftReject db req).2 := by
  unfold wellFormedDrafts at h ⊢
  unfold postDocDraftReject
  dsimp only
  repeat' split
  all_goals try dsimp only
  all_goals try simp only [insertEvidence_drafts, insertEvidence_next_id]
  all_goals first
    | exact h
    | (refine wfList_map ?_ ?_ (by omega) h <;>
        (intro r hr; (try dsimp only); split <;> rfl))

/-- `DELETE /@docs/draft` preserves well-formedness: it only deletes rows. -/
theorem deleteDocDraft_preserves_wf (db : DB) (req : DeleteDraftReq)
    (h : wellFormedDrafts db) : wellFormedDrafts (deleteDocDraft db req).2 := by
  unfold wellFormedDrafts at h ⊢
  unfold deleteDocDraft
  dsimp only
  repeat' split
  all_goals try dsimp only
  all_goals first
    | exact h
    | exact wfList_filter _ (le_refl _) h

/-- `POST /@docs/draft/approve` preserves well-formedness: every branch
leaves the drafts table alone or deletes the approved draft row. -/
theorem postDocDraftApprove_preserves_wf (db : DB) (req : ApproveReq)
    (h : wellFormedDrafts db) : wellFormedDrafts (postDocDraftApprove db req).2 := by
  unfold wellFormedDrafts at h ⊢
  unfold postDocDraftApprove
  dsimp only
  repeat' split
  all_goals try dsimp only
  all_goals first
    | exact h
    | (rw [approveStaged_drafts, approveStaged_next_id]; exact h)
    | (simp only [approveFinish_drafts, approveFinish_next_id, setQmsEffective_drafts,
        setQmsEffective_next_id, approveEvidence_drafts, recordApproveTransition_drafts,
        recordApproveTransition_next_id, approveStaged_drafts, approveStaged_next_id]
       refine wfList_filter _ ?_ h
       first
         | exact le_refl _
         | (refine le_trans ?_ (approveEvidence_next_id_ge _ _ _ _ _)
            rw [recordApproveTransition_next_id, approveStaged_next_id]
            omega))

theorem applyDraftOp_preserves_wf (db : DB) (op : DraftOp)
    (h : wellFormedDrafts db) : wellFormedDrafts (applyDraftOp db op) := by
  cases op with
  | put req => exact putDocDraft_preserves_wf db req h
  | submit req => exact postDocDraftSubmit_preserves_wf db req h
  | reject req => exact postDocDraftReject_preserves_wf db req h
  | approve req => exact postDocDraftApprove_preserves_wf db req h
  | del req => exact deleteDocDraft_preserves_wf db req h

theorem applyDraftOps_preserves_wf (db : DB) (ops : List DraftOp)
    (h : wellFormedDrafts db) : wellFormedDrafts (applyDraftOps db ops) := by
  induction ops generalizing db with
  | nil => exact h
  | cons op rest ih =>
    show wellFormedDrafts (applyDraftOps (applyDraftOp db op) rest)
    exact ih (applyDraftOp db op) (applyDraftOp_preserves_wf db op h)

/-- **C4**: starting from a well-formed database, any sequence of draft
endpoint calls (`PUT /@docs/draft`, submit, reject, approve,
`DELETE /@docs/draft`) leaves at most one `i18n.doc_drafts` row per
`doc_id`: the table stays pairwise distinct on its conflict key. -/
theorem draft_uniqueness_invariant (db : DB) (ops : List DraftOp)
    (h : wellFormedDrafts db) :
    (applyDraftOps db ops).doc_drafts.Pairwise (fun a b => a.doc_id ≠ b.doc_id) :=
  (applyDraftOps_preserves_wf db ops h).1

/-- A body for `PUT /@docs/draft` that creates a fresh draft of `sop-1`
after the existing draft was approved. -/
def reqPutC4 : PutDraftReq :=
  { slug := some "sop-1", version := some "1.2", title := some "T2",
    body_md := some "new body", frontmatter := none, justification := none,
    user := some "alice" }

theorem draft_uniqueness_invariant_witness :
    wellFormedDrafts dbApprove ∧
    (applyDraftOps dbApprove
        [DraftOp.approve reqApprove, DraftOp.put reqPutC4]).doc_drafts.Pairwise
      (fun a b => a.doc_id ≠ b.doc_id) := by
  have hwf : wellFormedDrafts dbApprove := by
    constructor
    · simp [dbApprove]
    constructor
    · simp [dbApprove]
    · intro r hr
      simp [dbApprove] at hr
      rw [hr]
      simp [draftA, dbApprove, emptyDB]
  exact ⟨hwf, draft_uniqueness_invariant dbApprove
    [DraftOp.approve reqApprove, DraftOp.put reqPutC4] hwf⟩
